import Mathlib

/-!
Verification of the LangChain examples repository's tool functions against
its specification.

The Python sources are shallowly embedded: pure string manipulation is
translated directly; every HTTP call is modelled by an explicit outcome
value supplied as an argument (the environment), together with the request
record the code builds for it; Python exceptions are the `PyExc` type and a
`try/except` block is the `pyTry` combinator, whose handler returns `none`
for an exception the block's `except` clauses do not catch (the exception
then propagates).  JSON payload numbers that the code merely passes through
to output are modelled as their decimal string forms; numbers the code
computes with are `Int`/`Rat` (CPython float arithmetic is modelled by exact
rationals, adequate for the claims proved here, none of which depends on
binary rounding).
-/

namespace LC

/-- Python exception values (`Exception` subclasses) that the embedded code
can raise.  Process-control `BaseException`s (`KeyboardInterrupt`,
`SystemExit`) are out of scope of the embedding. -/
inductive PyExc where
  | timeout
  | requestError (msg : String)
  | zeroDiv
  | valueError (msg : String)
  | syntaxError
  | keyError (key : String)
  | other (msg : String)
deriving DecidableEq, Repr

/-- `str(e)` for the modelled exceptions (used by catch-all `except` blocks). -/
def pyExcMsg : PyExc → String
  | .timeout => ""
  | .requestError m => m
  | .zeroDiv => "division by zero"
  | .valueError m => m
  | .syntaxError => "invalid syntax"
  | .keyError k => "'" ++ k ++ "'"
  | .other m => m

/-- Outcome of running a tool body: the returned string, or an uncaught
exception. -/
abbrev PyResult := Except PyExc String

instance {ε α : Type} [DecidableEq ε] [DecidableEq α] : DecidableEq (Except ε α) := fun a b =>
  match a, b with
  | .ok x, .ok y =>
    if h : x = y then isTrue (by rw [h]) else isFalse (by intro hh; cases hh; exact h rfl)
  | .error x, .error y =>
    if h : x = y then isTrue (by rw [h]) else isFalse (by intro hh; cases hh; exact h rfl)
  | .ok _, .error _ => isFalse (by intro hh; cases hh)
  | .error _, .ok _ => isFalse (by intro hh; cases hh)

def resultOk : PyResult → Bool
  | .ok _ => true
  | .error _ => false

/-- A `try: body except ...: ...` block.  The handler models the block's
`except` clauses: `none` means no clause matches the exception, which then
propagates to the caller. -/
def pyTry (body : PyResult) (handler : PyExc → Option String) : PyResult :=
  match body with
  | .ok s => .ok s
  | .error e =>
    match handler e with
    | some s => .ok s
    | none => .error e

theorem pyTry_ok_of_total (body : PyResult) (handler : PyExc → Option String)
    (h : ∀ e, (handler e).isSome) : resultOk (pyTry body handler) = true := by
  cases body with
  | ok s => rfl
  | error e =>
    have := h e
    unfold pyTry
    cases he : handler e with
    | some s => simp [he, resultOk]
    | none => rw [he] at this; simp [Option.isSome] at this

/-! ### Python string primitives -/

/-- `str.lower()`.  CPython lowers the full Unicode range; the inputs the
claims exercise are ASCII, where `Char.toLower` agrees. -/
def pyLower (s : String) : String := String.mk (s.data.map Char.toLower)

def pyUpper (s : String) : String := String.mk (s.data.map Char.toUpper)

/-- The ASCII whitespace `str.strip()` and `int()` remove and `re`'s `\s`
matches (CPython additionally covers Unicode whitespace, unused here). -/
def isPySpace (c : Char) : Bool :=
  c = ' ' ∨ c = '\t' ∨ c = '\n' ∨ c = '\r' ∨ c = '\x0b' ∨ c = '\x0c'

def pyStrip (s : String) : String :=
  String.mk (((s.data.dropWhile isPySpace).reverse.dropWhile isPySpace).reverse)

def splitCharAux (sep : Char) : List Char → List Char → List String
  | [], acc => [String.mk acc.reverse]
  | c :: rest, acc =>
    if c = sep then String.mk acc.reverse :: splitCharAux sep rest []
    else splitCharAux sep rest (c :: acc)

/-- `str.split(sep)` for a one-character separator; like Python's, the result
is never empty (`"".split("|") == [""]`). -/
def pySplit (sep : Char) (s : String) : List String := splitCharAux sep s.data []

def digitsToNatAux : List Char → Nat → Option Nat
  | [], acc => some acc
  | c :: r, acc =>
    if c.isDigit then digitsToNatAux r (acc * 10 + (c.toNat - 48)) else none

/-- `int(s)`: surrounding whitespace stripped, an optional sign, then decimal
digits (CPython also allows separating underscores, unused here). -/
def pyIntOpt (s : String) : Option Int :=
  match (pyStrip s).data with
  | [] => none
  | '-' :: r =>
    match r with
    | [] => none
    | _ => (digitsToNatAux r 0).map (fun n => -(n : Int))
  | '+' :: r =>
    match r with
    | [] => none
    | _ => (digitsToNatAux r 0).map (fun n => (n : Int))
  | l => (digitsToNatAux l 0).map (fun n => (n : Int))

/-- `int(s)` raising `ValueError` on a non-numeric literal (the message
models CPython's up to the `repr` of the argument). -/
def pyIntExc (s : String) : Except PyExc Int :=
  match pyIntOpt s with
  | some n => .ok n
  | none => .error (.valueError ("invalid literal for int() with base 10: '" ++ s ++ "'"))

/-- `s * n` for a string. -/
def pyRepeat (s : String) (n : Nat) : String := String.join (List.replicate n s)

def strTake (s : String) (n : Nat) : String := String.mk (s.data.take n)

def isPrefixL : List Char → List Char → Bool
  | [], _ => true
  | _ :: _, [] => false
  | a :: as, b :: bs => a = b && isPrefixL as bs

/-- `needle in hay` for strings (substring containment). -/
def isSubstrL (needle : List Char) : List Char → Bool
  | [] => needle.isEmpty
  | c :: rest => isPrefixL needle (c :: rest) || isSubstrL needle rest

/-! ### HTTP requests

The record a call to `httpx`/`requests` builds: URL, query parameters and
the wall-clock timeout passed (`none` when the code passes no timeout, as
`requests` then blocks without bound).  A parameter the code passes as a
number or a list is modelled by its encoded string form. -/

structure HttpReq where
  url : String
  params : List (String × String)
  timeout : Option Nat
deriving DecidableEq, Repr

def getParam (r : HttpReq) (k : String) : Option String :=
  (r.params.find? (fun p => p.1 = k)).map Prod.snd

/-- A tool body's outcome together with the requests it issued (a request
counts as issued once the `get`/`post` line runs, even when that call then
raises). -/
abbrev RunOut := PyResult × List HttpReq

def pyTryRun (body : RunOut) (handler : PyExc → Option String) : RunOut :=
  (pyTry body.1 handler, body.2)

theorem pyTryRun_ok_of_total (body : RunOut) (handler : PyExc → Option String)
    (h : ∀ e, (handler e).isSome) : resultOk (pyTryRun body handler).1 = true :=
  pyTry_ok_of_total body.1 handler h

/-! ### Exact decimal arithmetic helpers (CPython floats as rationals) -/

def natOfDigits (l : List Char) : Nat := l.foldl (fun acc c => acc * 10 + (c.toNat - 48)) 0

/-- The rational a regex group matching `\d+(\.\d+)?` denotes. -/
def parseDecRat (l : List Char) : Rat :=
  let intPart := l.takeWhile Char.isDigit
  let rest := l.dropWhile Char.isDigit
  match rest with
  | '.' :: fr => (natOfDigits intPart : Rat) + (natOfDigits fr : Rat) / ((10 : Rat) ^ fr.length)
  | _ => (natOfDigits intPart : Rat)

def stripTrailingZeros (l : List Char) : List Char :=
  (l.reverse.dropWhile (fun c => c = '0')).reverse

/-- Least `k ≤ 30` with `den ∣ 10 ^ k`, when one exists. -/
def pow10Exp (den : Nat) : Option Nat := (List.range 31).find? (fun k => 10 ^ k % den = 0)

/-- `str(x)` for a CPython float holding an exact decimal value: an integral
part, a point, and the fraction digits with trailing zeros dropped but at
least one digit kept (`str(15.0) == "15.0"`). -/
def pyFloatStr (q : Rat) : String :=
  match pow10Exp q.den with
  | none => toString q
  | some k =>
    let scaled := q.num.natAbs * (10 ^ k / q.den)
    let ds := toString scaled
    let ds := if ds.length ≤ k then pyRepeat "0" (k + 1 - ds.length) ++ ds else ds
    let ip := strTake ds (ds.length - k)
    let fr := stripTrailingZeros (ds.data.drop (ds.length - k))
    (if q.num < 0 then "-" else "") ++ ip ++ "." ++ (if fr.isEmpty then "0" else String.mk fr)

/-- Round to the nearest integer, ties to even (CPython `round` and format
rounding). -/
def roundHalfEvenQ (q : Rat) : Int :=
  let f := Int.fdiv q.num q.den
  let r := q.num - f * (q.den : Int)
  if 2 * r < (q.den : Int) then f
  else if 2 * r > (q.den : Int) then f + 1
  else if f % 2 = 0 then f else f + 1

/-- `round(q, k)`. -/
def roundToPlaces (q : Rat) (k : Nat) : Rat :=
  (roundHalfEvenQ (q * ((10 : Rat) ^ k)) : Rat) / ((10 : Rat) ^ k)

/-- `f"{q:.2f}"`. -/
def formatFixed2 (q : Rat) : String :=
  let n := roundHalfEvenQ (q * 100)
  let a := n.natAbs
  (if n < 0 then "-" else "") ++ toString (a / 100) ++ "." ++
    (if a % 100 < 10 then "0" else "") ++ toString (a % 100)

/-! ## utils_server.py — the `calculate` tool

`eval(expr, {"__builtins__": {}}, safe_dict)` is modelled by the arithmetic
evaluator `pyEvalArith` below, faithful to Python semantics on the numeric
fragment (decimal literals, unary sign, `+ - * / **`, parentheses, with
`int op int` staying `int` except true division, which produces a float);
an expression outside that fragment (names from `safe_dict`, `%`, tuples)
evaluates to an unclassified exception, which `calculate`'s catch-all
`except` turns into an error string, so nothing proved here depends on it. -/

def takeDigits (l : List Char) : List Char × List Char :=
  (l.takeWhile Char.isDigit, l.dropWhile Char.isDigit)

def takeSpaces (l : List Char) : List Char × List Char :=
  (l.takeWhile isPySpace, l.dropWhile isPySpace)

/-- Match the regex `(\d+(?:\.\d+)?)\s*%` anchored at `l`: the number group
and the rest after `%`.  Mirrors the backtracking of `re`: when the greedy
optional fraction blocks the `%`, the engine retries without it (shortening
a digit run never helps, as the next character is then a digit). -/
def percentNumAt (l : List Char) : Option (List Char × List Char) :=
  match takeDigits l with
  | ([], _) => none
  | (ds, rest) =>
    let tryTail := fun (num : List Char) (r : List Char) =>
      match (takeSpaces r).2 with
      | '%' :: r3 => some (num, r3)
      | _ => none
    match rest with
    | '.' :: r2 =>
      match takeDigits r2 with
      | ([], _) => tryTail ds rest
      | (fs, r3) => (tryTail (ds ++ '.' :: fs) r3).orElse (fun _ => tryTail ds rest)
    | _ => tryTail ds rest

/-- Match `(\d+(?:\.\d+)?)` anchored at `l` (greedy, nothing follows it in
the pattern, so no backtracking). -/
def numberAt (l : List Char) : Option (List Char × List Char) :=
  match takeDigits l with
  | ([], _) => none
  | (ds, rest) =>
    match rest with
    | '.' :: r2 =>
      match takeDigits r2 with
      | ([], _) => some (ds, rest)
      | (fs, r3) => some (ds ++ '.' :: fs, r3)
    | _ => some (ds, rest)

/-- Match `(\d+(?:\.\d+)?)\s*%\s*of\s*(\d+(?:\.\d+)?)` anchored at `l`. -/
def percentOfAt (l : List Char) : Option (List Char × List Char) :=
  match percentNumAt l with
  | none => none
  | some (num1, r) =>
    match (takeSpaces r).2 with
    | 'o' :: 'f' :: r3 =>
      match numberAt (takeSpaces r3).2 with
      | some (num2, _) => some (num1, num2)
      | none => none
    | _ => none

/-- `re.search` of the `"X% of Y"` pattern: try every start position left to
right, returning the two number groups of the first match. -/
def searchPercentOf : List Char → Option (List Char × List Char)
  | [] => none
  | c :: rest =>
    match percentOfAt (c :: rest) with
    | some g => some g
    | none => searchPercentOf rest

/-- `re.sub(r'(\d+(?:\.\d+)?)\s*%', r'(\1/100)', expr)`: scan left to right,
replacing each non-overlapping match.  When a match fails at the start of a
digit run it fails at every position inside the run (the argument in
`percentNumAt`), so the scan may emit the whole run and continue. -/
def percentSubAux : Nat → List Char → List Char
  | 0, l => l
  | _, [] => []
  | fuel + 1, c :: rest =>
    if c.isDigit then
      match percentNumAt (c :: rest) with
      | some (num, r) => '(' :: (num ++ '/' :: '1' :: '0' :: '0' :: ')' :: percentSubAux fuel r)
      | none =>
        match takeDigits (c :: rest) with
        | (ds, r) => ds ++ percentSubAux fuel r
    else
      c :: percentSubAux fuel rest

def percentSub (l : List Char) : List Char := percentSubAux l.length l

/-- `expr.replace("^", "**")`. -/
def caretSub (l : List Char) : List Char :=
  (l.map (fun c => if c = '^' then ['*', '*'] else [c])).flatten

/-- The character denylist of `calculate` (`allowed` in the source). -/
def allowedChars : List Char := "0123456789+-*/().%, ".data

/-- `char.isalpha()`.  CPython covers all Unicode letters; `Char.isAlpha`
is its ASCII restriction, which the claims exercise. -/
def pyIsAlpha (c : Char) : Bool := c.isAlpha

/-- The source's validation loop: the first character neither in `allowed`
nor alphabetic, if any. -/
def firstInvalidChar : List Char → Option Char
  | [] => none
  | c :: r => if allowedChars.contains c || pyIsAlpha c then firstInvalidChar r else some c

/-- A Python number: `int` or `float` (floats as exact rationals). -/
inductive NumV where
  | int (z : Int)
  | flt (q : Rat)
deriving DecidableEq, Repr

def toRatN : NumV → Rat
  | .int z => (z : Rat)
  | .flt q => q

def nAdd : NumV → NumV → NumV
  | .int a, .int b => .int (a + b)
  | a, b => .flt (toRatN a + toRatN b)

def nSub : NumV → NumV → NumV
  | .int a, .int b => .int (a - b)
  | a, b => .flt (toRatN a - toRatN b)

def nMul : NumV → NumV → NumV
  | .int a, .int b => .int (a * b)
  | a, b => .flt (toRatN a * toRatN b)

def nNeg : NumV → NumV
  | .int a => .int (-a)
  | .flt q => .flt (-q)

/-- Python true division: always a float, `ZeroDivisionError` on zero. -/
def nDiv (a b : NumV) : Except PyExc NumV :=
  if toRatN b = 0 then .error .zeroDiv else .ok (.flt (toRatN a / toRatN b))

/-- Python `**` on the modelled fragment. -/
def nPow (a b : NumV) : Except PyExc NumV :=
  match a, b with
  | .int x, .int y =>
    if 0 ≤ y then .ok (.int (x ^ y.toNat))
    else if x = 0 then .error .zeroDiv
    else .ok (.flt (((x : Rat) ^ y.natAbs)⁻¹))
  | a, b =>
    if (toRatN b).den = 1 then
      let y := (toRatN b).num
      if 0 ≤ y then .ok (.flt ((toRatN a) ^ y.toNat))
      else if toRatN a = 0 then .error .zeroDiv
      else .ok (.flt (((toRatN a) ^ y.natAbs)⁻¹))
    else .error (.other "eval: power not modelled")

inductive Tok where
  | num (v : NumV)
  | plus
  | minus
  | star
  | slash
  | pow
  | lpar
  | rpar
deriving DecidableEq, Repr

/-- Tokenize the arithmetic fragment.  Anything else (a character the
validation loop admits but whose evaluation the model does not cover, such
as a `safe_dict` name, `%` or `,`) signals an unclassified exception. -/
def tokenize : Nat → List Char → Except PyExc (List Tok)
  | 0, _ => .error (.other "eval: fuel exhausted")
  | _, [] => .ok []
  | fuel + 1, c :: rest =>
    if c = ' ' then tokenize fuel rest
    else if c.isDigit then
      match takeDigits (c :: rest) with
      | (ds, r) =>
        match r with
        | '.' :: r2 =>
          match takeDigits r2 with
          | ([], _) => .error (.other "eval: not modelled")
          | (fs, r3) =>
            (tokenize fuel r3).map (fun ts =>
              .num (.flt (parseDecRat (ds ++ '.' :: fs))) :: ts)
        | _ => (tokenize fuel r).map (fun ts => .num (.int (natOfDigits ds : Int)) :: ts)
    else if c = '+' then (tokenize fuel rest).map (fun ts => .plus :: ts)
    else if c = '-' then (tokenize fuel rest).map (fun ts => .minus :: ts)
    else if c = '*' then
      match rest with
      | '*' :: r2 => (tokenize fuel r2).map (fun ts => .pow :: ts)
      | _ => (tokenize fuel rest).map (fun ts => .star :: ts)
    else if c = '/' then (tokenize fuel rest).map (fun ts => .slash :: ts)
    else if c = '(' then (tokenize fuel rest).map (fun ts => .lpar :: ts)
    else if c = ')' then (tokenize fuel rest).map (fun ts => .rpar :: ts)
    else .error (.other "eval: not modelled")

mutual

/-- `expr := term (('+'|'-') term)*` -/
def parseExpr : Nat → List Tok → Except PyExc (NumV × List Tok)
  | 0, _ => .error (.other "eval: fuel exhausted")
  | fuel + 1, ts => do
    let (t, ts) ← parseTerm fuel ts
    parseExprRest fuel t ts

def parseExprRest : Nat → NumV → List Tok → Except PyExc (NumV × List Tok)
  | 0, _, _ => .error (.other "eval: fuel exhausted")
  | fuel + 1, acc, ts =>
    match ts with
    | .plus :: rest => do
      let (t, ts2) ← parseTerm fuel rest
      parseExprRest fuel (nAdd acc t) ts2
    | .minus :: rest => do
      let (t, ts2) ← parseTerm fuel rest
      parseExprRest fuel (nSub acc t) ts2
    | _ => .ok (acc, ts)

/-- `term := factor (('*'|'/') factor)*` -/
def parseTerm : Nat → List Tok → Except PyExc (NumV × List Tok)
  | 0, _ => .error (.other "eval: fuel exhausted")
  | fuel + 1, ts => do
    let (f, ts) ← parseFactor fuel ts
    parseTermRest fuel f ts

def parseTermRest : Nat → NumV → List Tok → Except PyExc (NumV × List Tok)
  | 0, _, _ => .error (.other "eval: fuel exhausted")
  | fuel + 1, acc, ts =>
    match ts with
    | .star :: rest => do
      let (f, ts2) ← parseFactor fuel rest
      parseTermRest fuel (nMul acc f) ts2
    | .slash :: rest => do
      let (f, ts2) ← parseFactor fuel rest
      let v ← nDiv acc f
      parseTermRest fuel v ts2
    | _ => .ok (acc, ts)

/-- `factor := ('+'|'-') factor | power` (Python's unary grammar). -/
def parseFactor : Nat → List Tok → Except PyExc (NumV × List Tok)
  | 0, _ => .error (.other "eval: fuel exhausted")
  | fuel + 1, ts =>
    match ts with
    | .plus :: rest => parseFactor fuel rest
    | .minus :: rest => do
      let (v, ts2) ← parseFactor fuel rest
      .ok (nNeg v, ts2)
    | _ => parsePower fuel ts

/-- `power := atom ('**' factor)?` (right-associative, as in Python). -/
def parsePower : Nat → List Tok → Except PyExc (NumV × List Tok)
  | 0, _ => .error (.other "eval: fuel exhausted")
  | fuel + 1, ts => do
    let (a, ts) ← parseAtom fuel ts
    match ts with
    | .pow :: rest => do
      let (b, ts2) ← parseFactor fuel rest
      let v ← nPow a b
      .ok (v, ts2)
    | _ => .ok (a, ts)

def parseAtom : Nat → List Tok → Except PyExc (NumV × List Tok)
  | 0, _ => .error (.other "eval: fuel exhausted")
  | fuel + 1, ts =>
    match ts with
    | .num v :: rest => .ok (v, rest)
    | .lpar :: rest => do
      let (v, ts2) ← parseExpr fuel rest
      match ts2 with
      | .rpar :: r => .ok (v, r)
      | _ => .error .syntaxError
    | _ => .error .syntaxError

end

/-- `eval` restricted to the arithmetic fragment (see the section comment). -/
def pyEvalArith (l : List Char) : Except PyExc NumV := do
  let ts ← tokenize (l.length + 1) l
  let (v, rest) ← parseExpr ((ts.length + 1) * 8) ts
  match rest with
  | [] => .ok v
  | _ => .error .syntaxError

/-- The preprocessed expression `calculate` validates and hands to `eval`:
lowercased, `\d+%` rewritten to `(\d/100)`, `^` replaced by `**`. -/
def calcPreprocess (expression : String) : List Char :=
  caretSub (percentSub (pyLower expression).data)

/-- `calculate`'s `except` clauses (`ZeroDivisionError`, `ValueError`,
`SyntaxError`, then a catch-all `Exception`). -/
def calcHandler : PyExc → Option String
  | .zeroDiv => some "Error: Division by zero"
  | .valueError m => some ("Error: Math error - " ++ m)
  | .syntaxError => some "Error: Invalid expression syntax"
  | e => some ("Error: Could not evaluate - " ++ pyExcMsg e)

/-- `isinstance(result, float)` normalization and the f-string rendering of
the evaluated result. -/
def formatCalcNum : NumV → String
  | .int z => toString z
  | .flt q =>
    if q.den = 1 then toString q.num
    else pyFloatStr (roundToPlaces q 10)

/-- `calculate(expression)` from `utils_server.py`, parameterized by the
general evaluator (instantiated with `pyEvalArith` in `calculate`); the
parameter makes "the evaluator is never reached" statable. -/
def calculate_gen (evalFn : List Char → Except PyExc NumV) (expression : String) : PyResult :=
  pyTry
    (match searchPercentOf (pyLower expression).data with
     | some (p, v) =>
       let percent := parseDecRat p
       let value := parseDecRat v
       let result := value * (percent / 100)
       .ok ("Result: " ++ pyFloatStr percent ++ "% of " ++ pyFloatStr value ++ " = " ++
            formatFixed2 result)
     | none =>
       match firstInvalidChar (calcPreprocess expression) with
       | some c => .ok ("Error: Invalid character '" ++ c.toString ++ "' in expression")
       | none =>
         match evalFn (calcPreprocess expression) with
         | .error e => .error e
         | .ok v => .ok ("Result: " ++ expression ++ " = " ++ formatCalcNum v))
    calcHandler

def calculate (expression : String) : PyResult := calculate_gen pyEvalArith expression

/-- `calculate` from `simple_RE-ACT_Tool Calling.py`: a bare `eval` inside a
catch-all `try`. -/
def simple_react_calculate (expression : String) : String :=
  match pyEvalArith expression.data with
  | .ok v =>
    "The result is: " ++ (match v with | .int z => toString z | .flt q => pyFloatStr q)
  | .error e => "Error calculating: " ++ pyExcMsg e

/-! ## news_server.py -/

def NEWSDATA_BASE_URL : String := "https://newsdata.io/api/1"

def VALID_CATEGORIES : List String :=
  ["business", "entertainment", "environment", "food", "health",
   "politics", "science", "sports", "technology", "top", "world"]

/-- An article object of a NewsData.io response (the fields the code reads;
a missing key is `none`). -/
structure NewsArticle where
  title : Option String
  description : Option String
  content : Option String
  source_id : Option String
  pubDate : Option String
  link : Option String
deriving DecidableEq, Repr

/-- The parsed JSON body of a NewsData.io response.  `errMessage` models
`data["results"]["message"]` of an error body (with the `"Unknown error"`
default applied by `.getD`). -/
structure NewsData where
  status : Option String
  errMessage : Option String
  results : List NewsArticle
  totalResults : Option Int
deriving DecidableEq, Repr

/-- The outcome the environment supplies for one `httpx`/`requests` call:
a response with a status code and parsed body, or an exception raised by
the call (or by `.json()`). -/
inductive HttpOutcome (α : Type) where
  | resp (status : Nat) (body : α)
  | exnTimeout
  | exnRequest (msg : String)
  | exnOther (msg : String)
deriving DecidableEq, Repr

/-- `re.sub(r'<[^>]+>', '', s)`: drop each `<`…`>` span holding at least one
non-`>` character. -/
def stripHtmlAux : Nat → List Char → List Char
  | 0, l => l
  | _, [] => []
  | fuel + 1, c :: rest =>
    if c = '<' then
      match rest.dropWhile (fun d => d ≠ '>') with
      | '>' :: r2 =>
        if (rest.takeWhile (fun d => d ≠ '>')).isEmpty then c :: stripHtmlAux fuel rest
        else stripHtmlAux fuel r2
      | _ => c :: stripHtmlAux fuel rest
    else c :: stripHtmlAux fuel rest

def stripHtml (s : String) : String := String.mk (stripHtmlAux s.data.length s.data)

/-- One numbered entry of `_format_articles`. -/
def formatArticle (i : Nat) (a : NewsArticle) : String :=
  let title := a.title.getD "No title"
  let contentD := a.content.getD "No description available"
  let description :=
    match a.description with
    | some d => if d = "" then contentD else d
    | none => contentD
  let description :=
    if description ≠ "" then
      let d2 := stripHtml description
      if d2.length > 250 then strTake d2 250 ++ "..." else d2
    else description
  let source := a.source_id.getD "Unknown source"
  let pub_date := a.pubDate.getD "Unknown date"
  let link := a.link.getD ""
  "\n" ++ toString i ++ ". " ++ title ++ "\n   📰 Source: " ++ source ++ " | 📅 " ++
    pub_date ++ "\n   " ++ description ++ "\n   🔗 " ++ link ++ "\n"

def enumFrom1 {α : Type} (l : List α) : List (Nat × α) :=
  (List.range l.length).zip l |>.map (fun p => (p.1 + 1, p.2))

/-- `_format_articles(articles, max_articles=5)`. -/
def formatArticles (articles : List NewsArticle) (maxArticles : Nat) : String :=
  if articles.isEmpty then "No articles found matching your criteria."
  else
    String.intercalate "\n" ((enumFrom1 (articles.take maxArticles)).map
      (fun p => formatArticle p.1 p.2))

def newsKeyMissingMsg : String :=
  "Error: NEWSDATA_API_KEY not set.\n\nTo get your FREE API key:\n1. Go to https://newsdata.io/register\n2. Sign up with your email\n3. Copy your API key from the dashboard\n4. Add to .env file: NEWSDATA_API_KEY=your_key_here"

/-- `get_news_by_country`'s variant of the missing-key message (three steps). -/
def newsKeyMissingMsgShort : String :=
  "Error: NEWSDATA_API_KEY not set.\n\nTo get your FREE API key:\n1. Go to https://newsdata.io/register\n2. Sign up with your email\n3. Copy your API key from the dashboard"

/-- The shared `except` clauses of the three news tools
(`httpx.TimeoutException`, `httpx.RequestError`, catch-all `Exception`). -/
def newsHandler : PyExc → Option String
  | .timeout => some "Error: Request timed out. Please try again."
  | .requestError m => some ("Error: Failed to connect to news API: " ++ m)
  | e => some ("Error: Unexpected error: " ++ pyExcMsg e)

/-- The status-code checks and body handling shared verbatim by the three
news tools, applied to a response; `success` renders the 200 body. -/
def newsRespCase (body : NewsData) (success : NewsData → String) : PyResult :=
  if body.status = some "error" then
    .ok ("Error from NewsData.io: " ++ body.errMessage.getD "Unknown error")
  else .ok (success body)

def newsStatusCase (status : Nat) (body : NewsData) (success : NewsData → String) : PyResult :=
  if status = 401 then .ok "Error: Invalid API key. Please check your NEWSDATA_API_KEY."
  else if status = 429 then .ok "Error: API rate limit exceeded. Free tier allows 200 requests/day."
  else if status ≠ 200 then .ok ("Error: API returned status " ++ toString status)
  else newsRespCase body success

def newsOutcomeCase (env : HttpOutcome NewsData) (req : HttpReq)
    (success : NewsData → String) : RunOut :=
  (match env with
   | .exnTimeout => .error .timeout
   | .exnRequest m => .error (.requestError m)
   | .exnOther m => .error (.other m)
   | .resp status body => newsStatusCase status body success,
   [req])

/-- `search_news(query, language="en")`. -/
def search_news (apiKey : String) (query : String) (language : String)
    (env : HttpOutcome NewsData) : RunOut :=
  if apiKey = "" then (.ok newsKeyMissingMsg, [])
  else
    pyTryRun
      (newsOutcomeCase env
        ⟨NEWSDATA_BASE_URL ++ "/news",
         [("apikey", apiKey), ("q", query), ("language", language)], some 15⟩
        (fun data =>
          let articles := data.results
          let total := data.totalResults.getD (articles.length : Int)
          "Found " ++ toString total ++ " articles for '" ++ query ++ "':\n" ++
            pyRepeat "=" 50 ++ formatArticles articles 5))
      newsHandler

def invalidCategoryMsg (category : String) : String :=
  "Error: Invalid category '" ++ category ++ "'. Valid options: " ++
    String.intercalate ", " VALID_CATEGORIES

/-- `get_headlines(category=None, country="us")`.  Note the source guards
the validation with the truthiness test `if category and ...`, so an empty
string behaves like an omitted category. -/
def get_headlines (apiKey : String) (category : Option String) (country : String)
    (env : HttpOutcome NewsData) : RunOut :=
  if apiKey = "" then (.ok newsKeyMissingMsg, [])
  else if (match category with
           | some c => c ≠ "" && !(VALID_CATEGORIES.contains (pyLower c))
           | none => false) then
    (.ok (invalidCategoryMsg (category.getD "")), [])
  else
    let params :=
      [("apikey", apiKey), ("country", country), ("language", "en")] ++
        (match category with
         | some c => if c ≠ "" then [("category", pyLower c)] else []
         | none => [])
    pyTryRun
      (newsOutcomeCase env ⟨NEWSDATA_BASE_URL ++ "/news", params, some 15⟩
        (fun data =>
          let articles := data.results
          let category_str :=
            match category with
            | some c => if c ≠ "" then " (" ++ c ++ ")" else ""
            | none => ""
          "Top Headlines - " ++ pyUpper country ++ category_str ++ ":\n" ++
            pyRepeat "=" 50 ++ formatArticles articles 5))
      newsHandler

/-- `get_news_by_country(country, topic=None)`. -/
def get_news_by_country (apiKey : String) (country : String) (topic : Option String)
    (env : HttpOutcome NewsData) : RunOut :=
  if apiKey = "" then (.ok newsKeyMissingMsgShort, [])
  else
    let params :=
      [("apikey", apiKey), ("country", country), ("language", "en")] ++
        (match topic with
         | some t => if t ≠ "" then [("q", t)] else []
         | none => [])
    pyTryRun
      (newsOutcomeCase env ⟨NEWSDATA_BASE_URL ++ "/news", params, some 15⟩
        (fun data =>
          let articles := data.results
          let topic_str :=
            match topic with
            | some t => if t ≠ "" then " about '" ++ t ++ "'" else ""
            | none => ""
          "News from " ++ pyUpper country ++ topic_str ++ ":\n" ++
            pyRepeat "=" 50 ++ formatArticles articles 5))
      newsHandler

/-! ## weather_server.py -/

def GEOCODING_URL : String := "https://geocoding-api.open-meteo.com/v1/search"

def WEATHER_URL : String := "https://api.open-meteo.com/v1/forecast"

def WEATHER_CODES : List (Int × String) :=
  [(0, "Clear sky"), (1, "Mainly clear"), (2, "Partly cloudy"), (3, "Overcast"),
   (45, "Foggy"), (48, "Depositing rime fog"), (51, "Light drizzle"),
   (53, "Moderate drizzle"), (55, "Dense drizzle"), (61, "Slight rain"),
   (63, "Moderate rain"), (65, "Heavy rain"), (71, "Slight snow"),
   (73, "Moderate snow"), (75, "Heavy snow"), (77, "Snow grains"),
   (80, "Slight rain showers"), (81, "Moderate rain showers"),
   (82, "Violent rain showers"), (85, "Slight snow showers"),
   (86, "Heavy snow showers"), (95, "Thunderstorm"),
   (96, "Thunderstorm with slight hail"), (99, "Thunderstorm with heavy hail")]

/-- `WEATHER_CODES.get(code, "Unknown")`. -/
def weatherDesc (c : Int) : String :=
  ((WEATHER_CODES.find? (fun p => p.1 = c)).map Prod.snd).getD "Unknown"

/-- One result of the geocoding response (latitude/longitude are JSON
numbers the code only passes through, modelled as their decimal strings). -/
structure GeoLoc where
  latitude : String
  longitude : String
  name : String
  country : Option String
deriving DecidableEq, Repr

/-- Environment for one `_geocode_city` call: the response, or an exception
anywhere inside the helper's catch-all `try`. -/
inductive GeoOutcome where
  | resp (status : Nat) (results : List GeoLoc)
  | exn (msg : String)
deriving DecidableEq, Repr

def geocodeReq (city : String) : HttpReq :=
  ⟨GEOCODING_URL, [("name", city), ("count", "1"), ("language", "en"), ("format", "json")],
   some 10⟩

/-- `_geocode_city(city)`: every failure is absorbed into `None` by its own
catch-all `try`. -/
def _geocode_city (city : String) (env : GeoOutcome) :
    Option (String × String × String × String) × List HttpReq :=
  (match env with
   | .exn _ => none
   | .resp status results =>
     if status ≠ 200 then none
     else
       match results with
       | [] => none
       | loc :: _ => some (loc.latitude, loc.longitude, loc.name, loc.country.getD "Unknown"),
   [geocodeReq city])

structure WeatherCurrent where
  temperature_2m : Option String
  relative_humidity_2m : Option String
  apparent_temperature : Option String
  weather_code : Option Int
  wind_speed_10m : Option String
  wind_direction_10m : Option String
deriving DecidableEq, Repr

structure WeatherDaily where
  time : List String
  temperature_2m_max : List String
  temperature_2m_min : List String
  weather_code : List Int
  precipitation_probability_max : List String
deriving DecidableEq, Repr

structure WeatherData where
  current : WeatherCurrent
  daily : WeatherDaily
deriving DecidableEq, Repr

def _format_current_weather (data : WeatherData) (city country : String) : String :=
  let current := data.current
  let temp := current.temperature_2m.getD "N/A"
  let feels_like := current.apparent_temperature.getD temp
  let humidity := current.relative_humidity_2m.getD "N/A"
  let code := current.weather_code.getD 0
  let wind_speed := current.wind_speed_10m.getD "N/A"
  let wind_dir := current.wind_direction_10m.getD "N/A"
  "\nWeather for " ++ city ++ ", " ++ country ++ ":\n" ++ pyRepeat "━" 30 ++
    "\n🌡️  Temperature: " ++ temp ++ "°C (feels like " ++ feels_like ++ "°C)\n☁️  Conditions: " ++
    weatherDesc code ++ "\n💧 Humidity: " ++ humidity ++ "%\n💨 Wind: " ++ wind_speed ++
    " km/h (direction: " ++ wind_dir ++ "°)\n"

/-! `datetime.strptime(date, "%Y-%m-%d")` / `strftime("%A, %b %d")` -/

def monthAbbrev : Nat → String
  | 1 => "Jan" | 2 => "Feb" | 3 => "Mar" | 4 => "Apr" | 5 => "May" | 6 => "Jun"
  | 7 => "Jul" | 8 => "Aug" | 9 => "Sep" | 10 => "Oct" | 11 => "Nov" | 12 => "Dec"
  | _ => ""

/-- `%A` names indexed by Sakamoto's weekday (0 = Sunday). -/
def weekdayName : Nat → String
  | 0 => "Sunday" | 1 => "Monday" | 2 => "Tuesday" | 3 => "Wednesday"
  | 4 => "Thursday" | 5 => "Friday" | 6 => "Saturday" | _ => ""

def isLeapYear (y : Nat) : Bool := (y % 4 = 0 && y % 100 ≠ 0) || y % 400 = 0

def daysInMonth (y m : Nat) : Nat :=
  if m = 2 then (if isLeapYear y then 29 else 28)
  else if m = 4 ∨ m = 6 ∨ m = 9 ∨ m = 11 then 30
  else 31

/-- Sakamoto's day-of-week algorithm (0 = Sunday), for the Gregorian
calendar as `datetime` uses it. -/
def dayOfWeek (y m d : Nat) : Nat :=
  let t := [0, 3, 2, 5, 0, 3, 5, 1, 4, 6, 2, 4]
  let y := if m < 3 then y - 1 else y
  (y + y / 4 - y / 100 + y / 400 + t.getD (m - 1) 0 + d) % 7

def allDigits (l : List Char) : Bool := !l.isEmpty && l.all Char.isDigit

/-- `datetime.strptime(s, "%Y-%m-%d")`: three dash-separated digit groups
with a valid month and day (else `ValueError`). -/
def parseDateYMD (s : String) : Except PyExc (Nat × Nat × Nat) :=
  match pySplit '-' s with
  | [ys, ms, ds] =>
    if allDigits ys.data && allDigits ms.data && allDigits ds.data then
      let y := natOfDigits ys.data
      let m := natOfDigits ms.data
      let d := natOfDigits ds.data
      if 1 ≤ y && y ≤ 9999 && 1 ≤ m && m ≤ 12 && 1 ≤ d && d ≤ daysInMonth y m then
        .ok (y, m, d)
      else .error (.valueError ("time data '" ++ s ++ "' does not match format '%Y-%m-%d'"))
    else .error (.valueError ("time data '" ++ s ++ "' does not match format '%Y-%m-%d'"))
  | _ => .error (.valueError ("time data '" ++ s ++ "' does not match format '%Y-%m-%d'"))

def pad2 (n : Nat) : String := (if n < 10 then "0" else "") ++ toString n

/-- `dt.strftime("%A, %b %d")` after parsing `%Y-%m-%d`. -/
def formatDayName (date : String) : Except PyExc String := do
  let (y, m, d) ← parseDateYMD date
  .ok (weekdayName (dayOfWeek y m d) ++ ", " ++ monthAbbrev m ++ " " ++ pad2 d)

/-- One iteration of `_format_forecast`'s day loop. -/
def forecastBlock (daily : WeatherDaily) (i : Nat) : Except PyExc String := do
  let date := (daily.time[i]?).getD ""
  let day_name ← formatDayName date
  let t_max := (daily.temperature_2m_max[i]?).getD "N/A"
  let t_min := (daily.temperature_2m_min[i]?).getD "N/A"
  let code := (daily.weather_code[i]?).getD 0
  let prob := (daily.precipitation_probability_max[i]?).getD "N/A"
  .ok ("\n📅 " ++ day_name ++ "\n   🌡️  High: " ++ t_max ++ "°C | Low: " ++ t_min ++
       "°C\n   ☁️  " ++ weatherDesc code ++ "\n   🌧️  Precipitation chance: " ++ prob ++ "%\n")

def forecastBlocksAux (daily : WeatherDaily) : List Nat → Except PyExc (List String)
  | [] => .ok []
  | i :: rest =>
    match forecastBlock daily i with
    | .error e => .error e
    | .ok b =>
      match forecastBlocksAux daily rest with
      | .error e => .error e
      | .ok bs => .ok (b :: bs)

/-- The day loop `for i in range(min(days, len(times)))`; an exception in an
iteration aborts the loop, as Python's raise would. -/
def forecastBlocks (daily : WeatherDaily) (days : Nat) : Except PyExc (List String) :=
  forecastBlocksAux daily (List.range (min days daily.time.length))

def _format_forecast (data : WeatherData) (city country : String) (days : Nat) : String :=
  match forecastBlocks data.daily days with
  | .ok blocks =>
    "\n" ++ toString days ++ "-Day Forecast for " ++ city ++ ", " ++ country ++ ":\n" ++
      pyRepeat "━" 40 ++ "\n" ++ String.join blocks
  | .error e => "Error formatting forecast data: " ++ pyExcMsg e

def currentFieldsParam : String :=
  "temperature_2m,relative_humidity_2m,apparent_temperature,weather_code,wind_speed_10m,wind_direction_10m"

def dailyFieldsParam : String :=
  "temperature_2m_max,temperature_2m_min,weather_code,precipitation_probability_max"

/-- The shared `except` clauses of the three weather tools. -/
def weatherHandler : PyExc → Option String
  | .timeout => some "Error: Request timed out. Please try again."
  | .requestError m => some ("Error: Failed to connect to weather API: " ++ m)
  | e => some ("Error: Unexpected error: " ++ pyExcMsg e)

def weatherOutcomeCase (env : HttpOutcome WeatherData) (req : HttpReq)
    (success : WeatherData → String) : RunOut :=
  (match env with
   | .exnTimeout => .error .timeout
   | .exnRequest m => .error (.requestError m)
   | .exnOther m => .error (.other m)
   | .resp status data =>
     if status ≠ 200 then .ok ("Error: Weather API returned status " ++ toString status)
     else .ok (success data),
   [req])

/-- `get_weather(city)`. -/
def get_weather (city : String) (geoEnv : GeoOutcome) (env : HttpOutcome WeatherData) : RunOut :=
  let (geo, geoReqs) := _geocode_city city geoEnv
  match geo with
  | none =>
    (.ok ("Error: Could not find city '" ++ city ++
          "'. Please check the spelling or try a larger nearby city."), geoReqs)
  | some (lat, lon, city_name, country) =>
    let req : HttpReq :=
      ⟨WEATHER_URL,
       [("latitude", lat), ("longitude", lon), ("current", currentFieldsParam),
        ("timezone", "auto")], some 10⟩
    let out := pyTryRun
      (weatherOutcomeCase env req (fun data => _format_current_weather data city_name country))
      weatherHandler
    (out.1, geoReqs ++ out.2)

/-- `get_forecast(city, days=5)`; `days` is clamped with
`max(1, min(16, days))` before anything else runs. -/
def get_forecast (city : String) (days : Int) (geoEnv : GeoOutcome)
    (env : HttpOutcome WeatherData) : RunOut :=
  let days := max 1 (min 16 days)
  let (geo, geoReqs) := _geocode_city city geoEnv
  match geo with
  | none =>
    (.ok ("Error: Could not find city '" ++ city ++ "'. Please check the spelling."), geoReqs)
  | some (lat, lon, city_name, country) =>
    let req : HttpReq :=
      ⟨WEATHER_URL,
       [("latitude", lat), ("longitude", lon), ("daily", dailyFieldsParam),
        ("timezone", "auto"), ("forecast_days", toString days)], some 10⟩
    let out := pyTryRun
      (weatherOutcomeCase env req
        (fun data => _format_forecast data city_name country days.toNat))
      weatherHandler
    (out.1, geoReqs ++ out.2)

/-- `get_weather_by_coordinates(latitude, longitude)` (the float inputs are
modelled by their decimal string forms, which the code only interpolates). -/
def get_weather_by_coordinates (latitude longitude : String)
    (env : HttpOutcome WeatherData) : RunOut :=
  let req : HttpReq :=
    ⟨WEATHER_URL,
     [("latitude", latitude), ("longitude", longitude), ("current", currentFieldsParam),
      ("timezone", "auto")], some 10⟩
  pyTryRun
    (weatherOutcomeCase env req (fun data =>
      let current := data.current
      let temp := current.temperature_2m.getD "N/A"
      let feels_like := current.apparent_temperature.getD temp
      let humidity := current.relative_humidity_2m.getD "N/A"
      let code := current.weather_code.getD 0
      let wind_speed := current.wind_speed_10m.getD "N/A"
      "\nWeather at (" ++ latitude ++ ", " ++ longitude ++ "):\n" ++ pyRepeat "━" 30 ++
        "\n🌡️  Temperature: " ++ temp ++ "°C (feels like " ++ feels_like ++
        "°C)\n☁️  Conditions: " ++ weatherDesc code ++ "\n💧 Humidity: " ++ humidity ++
        "%\n💨 Wind: " ++ wind_speed ++ " km/h\n"))
    weatherHandler

/-! ## utils_server.py — time and temperature tools -/

def TIMEZONE_ALIASES : List (String × String) :=
  [("new york", "America/New_York"), ("ny", "America/New_York"), ("nyc", "America/New_York"),
   ("los angeles", "America/Los_Angeles"), ("la", "America/Los_Angeles"),
   ("chicago", "America/Chicago"), ("denver", "America/Denver"),
   ("toronto", "America/Toronto"), ("vancouver", "America/Vancouver"),
   ("sao paulo", "America/Sao_Paulo"),
   ("london", "Europe/London"), ("paris", "Europe/Paris"), ("berlin", "Europe/Berlin"),
   ("rome", "Europe/Rome"), ("madrid", "Europe/Madrid"), ("amsterdam", "Europe/Amsterdam"),
   ("moscow", "Europe/Moscow"),
   ("tokyo", "Asia/Tokyo"), ("beijing", "Asia/Shanghai"), ("shanghai", "Asia/Shanghai"),
   ("hong kong", "Asia/Hong_Kong"), ("singapore", "Asia/Singapore"),
   ("mumbai", "Asia/Kolkata"), ("delhi", "Asia/Kolkata"), ("dubai", "Asia/Dubai"),
   ("seoul", "Asia/Seoul"), ("bangkok", "Asia/Bangkok"),
   ("sydney", "Australia/Sydney"), ("melbourne", "Australia/Melbourne"),
   ("auckland", "Pacific/Auckland"),
   ("utc", "UTC"), ("gmt", "UTC"), ("est", "America/New_York"),
   ("pst", "America/Los_Angeles"), ("cet", "Europe/Paris"), ("jst", "Asia/Tokyo")]

/-- `TIMEZONE_ALIASES.get(k)`. -/
def aliasLookup (k : String) : Option String :=
  (TIMEZONE_ALIASES.find? (fun p => p.1 = k)).map Prod.snd

/-- The `zoneinfo`/`datetime` library behavior `get_current_time` consults:
whether `ZoneInfo(name)` succeeds, and `datetime.now(tz)`'s four `strftime`
renderings for the zone. -/
structure TimeEnv where
  zoneExists : String → Bool
  dateStr : String → String
  time12Str : String → String
  time24Str : String → String
  offsetStr : String → String

/-- `get_current_time(timezone=None)`.  With `timezone=None` the `KeyError`
branch's `timezone.lower()` would raise `AttributeError`, absorbed by the
outer catch-all (that branch needs the environment to fail on `"UTC"`). -/
def get_current_time (timezone : Option String) (env : TimeEnv) : PyResult :=
  pyTry
    (let tz_name :=
       match timezone with
       | some tz => (aliasLookup (pyStrip (pyLower tz))).getD tz
       | none => "UTC"
     if env.zoneExists tz_name then
       .ok ("\nCurrent Time (" ++ tz_name ++ "):\n" ++ pyRepeat "━" 24 ++ "\n📅 Date: " ++
            env.dateStr tz_name ++ "\n🕐 Time: " ++ env.time12Str tz_name ++ " (" ++
            env.time24Str tz_name ++ " 24h)\n🌍 UTC Offset: " ++ env.offsetStr tz_name ++ "\n")
     else
       match timezone with
       | none => .error (.other "AttributeError on timezone.lower()")
       | some tz =>
         let suggestions :=
           (TIMEZONE_ALIASES.map Prod.fst).filter (fun k => isSubstrL (pyLower tz).data k.data)
         if !suggestions.isEmpty then
           .ok ("Error: Unknown timezone '" ++ tz ++ "'. Did you mean: " ++
                String.intercalate ", " (suggestions.take 5) ++ "?")
         else
           .ok ("Error: Unknown timezone '" ++ tz ++
                "'. Try city names like 'London', 'Tokyo', 'New York' or IANA format like 'America/New_York'"))
    (fun e => some ("Error: Could not get time - " ++ pyExcMsg e))

/-- The library behavior `convert_timezone` consults: zone lookup success,
a per-zone `utcoffset().total_seconds()`, and the `astimezone` rendering of
the converted time (`'%H:%M'`). -/
structure TzConvEnv where
  zoneExists : String → Bool
  offsetSeconds : String → Int
  targetHM : String → String → Nat → Nat → String

/-- `str(e)` of the `ZoneInfoNotFoundError` (a `KeyError`) that
`ZoneInfo(name)` raises. -/
def zoneKeyErrStr (name : String) : String := "'No time zone found with key " ++ name ++ "'"

/-- `f"{x:+.1f}"` of `diffSeconds / 3600` hours. -/
def formatSigned1d (diffSeconds : Int) : String :=
  let tenths := roundHalfEvenQ ((diffSeconds : Rat) * 10 / 3600)
  (if tenths < 0 then "-" else "+") ++ toString (tenths.natAbs / 10) ++ "." ++
    toString (tenths.natAbs % 10)

/-- `convert_timezone(time_str, from_timezone, to_timezone)`. -/
def convert_timezone (time_str from_timezone to_timezone : String) (env : TzConvEnv) :
    PyResult :=
  pyTry
    (let from_tz_name := (aliasLookup (pyStrip (pyLower from_timezone))).getD from_timezone
     let to_tz_name := (aliasLookup (pyStrip (pyLower to_timezone))).getD to_timezone
     if !env.zoneExists from_tz_name then
       .ok ("Error: Unknown timezone - " ++ pyStrip (zoneKeyErrStr from_tz_name))
     else if !env.zoneExists to_tz_name then
       .ok ("Error: Unknown timezone - " ++ pyStrip (zoneKeyErrStr to_tz_name))
     else if time_str.data.contains ':' then
       match pyIntOpt ((pySplit ':' time_str).getD 0 "") with
       | none => .ok "Error: Invalid time format. Use HH:MM (24-hour)"
       | some hour =>
         match (if (pySplit ':' time_str).length > 1 then
                  pyIntOpt ((pySplit ':' time_str).getD 1 "")
                else some 0) with
         | none => .ok "Error: Invalid time format. Use HH:MM (24-hour)"
         | some minute =>
           if hour < 0 ∨ 23 < hour then .error (.valueError "hour must be in 0..23")
           else if minute < 0 ∨ 59 < minute then .error (.valueError "minute must be in 0..59")
           else
             let target := env.targetHM from_tz_name to_tz_name hour.toNat minute.toNat
             let diffSeconds := env.offsetSeconds to_tz_name - env.offsetSeconds from_tz_name
             .ok ("\nTimezone Conversion:\n" ++ pyRepeat "━" 20 ++ "\n⏰ " ++ time_str ++
                  " in " ++ from_tz_name ++ "\n   ↓\n⏰ " ++ target ++ " in " ++ to_tz_name ++
                  "\n\n📊 Time difference: " ++ formatSigned1d diffSeconds ++ " hours\n")
     else .ok "Error: Invalid time format. Use HH:MM (24-hour)")
    (fun e => some ("Error: Could not convert - " ++ pyExcMsg e))

def unit_map : List (String × String) :=
  [("c", "celsius"), ("celsius", "celsius"), ("f", "fahrenheit"),
   ("fahrenheit", "fahrenheit"), ("k", "kelvin"), ("kelvin", "kelvin")]

def tempSymbol : String → String
  | "celsius" => "°C"
  | "fahrenheit" => "°F"
  | _ => "K"

/-- `convert_temperature(value, from_unit, to_unit)` (the float input as an
exact rational). -/
def convert_temperature (value : Rat) (from_unit to_unit : String) : PyResult :=
  match (unit_map.find? (fun p => p.1 = pyStrip (pyLower from_unit))).map Prod.snd,
        (unit_map.find? (fun p => p.1 = pyStrip (pyLower to_unit))).map Prod.snd with
  | some fu, some tu =>
    pyTry
      (let celsius :=
         if fu = "celsius" then value
         else if fu = "fahrenheit" then (value - 32) * 5 / 9
         else value - 273.15
       let result :=
         if tu = "celsius" then celsius
         else if tu = "fahrenheit" then celsius * 9 / 5 + 32
         else celsius + 273.15
       let result := roundToPlaces result 2
       .ok ("Result: " ++ pyFloatStr value ++ tempSymbol fu ++ " = " ++
            pyFloatStr result ++ tempSymbol tu))
      (fun e => some ("Error: Could not convert - " ++ pyExcMsg e))
  | _, _ => .ok "Error: Invalid unit. Use 'celsius' (c), 'fahrenheit' (f), or 'kelvin' (k)"

/-! ## LangChain_short_term_memory.py — Amadeus auth and the travel tools -/

def AMADEUS_AUTH_URL : String := "https://test.api.amadeus.com/v1/security/oauth2/token"

def AMADEUS_FLIGHT_URL : String := "https://test.api.amadeus.com/v2/shopping/flight-offers"

def AMADEUS_HOTEL_LIST_URL : String :=
  "https://test.api.amadeus.com/v1/reference-data/locations/hotels/by-city"

def AMADEUS_HOTEL_OFFERS_URL : String := "https://test.api.amadeus.com/v3/shopping/hotel-offers"

/-- The process-wide globals `_amadeus_token` / `_token_expiry` (the expiry
datetime as seconds on an absolute clock). -/
structure TokenCache where
  token : Option String
  expiry : Option Int
deriving DecidableEq, Repr

/-- Environment for the `requests.post` of the auth flow: the response
(`access_token` may be absent — a `KeyError` — and `expires_in` defaults to
1799 via `.get`), or an exception from the call itself. -/
inductive AuthOutcome where
  | resp (status : Nat) (accessToken : Option String) (expiresIn : Option Int) (text : String)
  | exn (msg : String)
deriving DecidableEq, Repr

/-- The token request (`requests.post` with form data and no timeout). -/
def authReq (apiKey apiSecret : String) : HttpReq :=
  ⟨AMADEUS_AUTH_URL,
   [("grant_type", "client_credentials"), ("client_id", apiKey), ("client_secret", apiSecret)],
   none⟩

/-- `_amadeus_token and _token_expiry and datetime.now() < _token_expiry`
(a datetime is always truthy; an empty-string token is falsy). -/
def cacheValid (cache : TokenCache) (now : Int) : Bool :=
  match cache.token, cache.expiry with
  | some t, some e => t ≠ "" && now < e
  | _, _ => false

/-- `get_amadeus_token()`: the cached token when still valid, else a fresh
authentication, caching the token with expiry `now + expires_in - 300`; a
non-200 status raises `Exception` to the caller. -/
def get_amadeus_token (apiKey apiSecret : String) (cache : TokenCache) (now : Int)
    (env : AuthOutcome) : Except PyExc (String × TokenCache) × List HttpReq :=
  if cacheValid cache now then (.ok (cache.token.getD "", cache), [])
  else
    let req := authReq apiKey apiSecret
    match env with
    | .exn m => (.error (.other m), [req])
    | .resp status accessToken expiresIn text =>
      if status = 200 then
        match accessToken with
        | none => (.error (.keyError "access_token"), [req])
        | some tok =>
          (.ok (tok, ⟨some tok, some (now + (expiresIn.getD 1799 - 300))⟩), [req])
      else
        (.error (.other ("Failed to get Amadeus token: " ++ toString status ++ " - " ++ text)),
         [req])

structure SerpResult where
  title : Option String
  snippet : Option String
deriving DecidableEq, Repr

structure SerpData where
  organic_results : List SerpResult
  answerAnswer : Option String
  answerSnippet : Option String
deriving DecidableEq, Repr

def enumFrom0 {α : Type} (l : List α) : List (Nat × α) := (List.range l.length).zip l

/-- `serp_search(query)` (the `requests.get` passes no timeout). -/
def serp_search (apiKey query : String) (env : HttpOutcome SerpData) : RunOut :=
  pyTryRun
    (match env with
     | .exnTimeout => .error .timeout
     | .exnRequest m => .error (.requestError m)
     | .exnOther m => .error (.other m)
     | .resp status data =>
       if status = 200 then
         let organic := data.organic_results.take 5
         let results := (enumFrom1 organic).map (fun p =>
           toString p.1 ++ ". " ++ p.2.title.getD "No title" ++ "\n   " ++
             p.2.snippet.getD "No description")
         let answer :=
           match data.answerAnswer with
           | some a => if a ≠ "" then a else (data.answerSnippet.getD "")
           | none => data.answerSnippet.getD ""
         let result_text :=
           (if answer ≠ "" then "Quick Answer: " ++ answer ++ "\n\n" else "") ++
             "Search Results:\n" ++ String.intercalate "\n\n" results
         .ok result_text
       else .ok ("Search failed with status " ++ toString status),
     [⟨"https://serpapi.com/search",
       [("q", query), ("api_key", apiKey), ("engine", "google"), ("num", "5")], none⟩])
    (fun e => some ("Search error: " ++ pyExcMsg e))

structure FlightSegment where
  carrierCode : Option String
  number : Option String
  depIata : Option String
  depAt : Option String
  arrIata : Option String
  arrAt : Option String
deriving DecidableEq, Repr

structure FlightItinerary where
  duration : Option String
  segments : List FlightSegment
deriving DecidableEq, Repr

structure FlightOffer where
  priceTotal : Option String
  priceCurrency : Option String
  itineraries : List FlightItinerary
deriving DecidableEq, Repr

/-- The flight-offers response; `errDetail` models
`errors[0].get("detail", response.text)` of an error body. -/
inductive FlightOutcome where
  | resp (status : Nat) (offers : List FlightOffer) (errDetail : Option String) (text : String)
  | exn (msg : String)
deriving DecidableEq, Repr

def formatSegment (seg : FlightSegment) : String :=
  "    - " ++ seg.carrierCode.getD "N/A" ++ seg.number.getD "N/A" ++ ": " ++
    seg.depIata.getD "N/A" ++ " (" ++ seg.depAt.getD "N/A" ++ ") -> " ++
    seg.arrIata.getD "N/A" ++ " (" ++ seg.arrAt.getD "N/A" ++ ")\n"

def formatItinerary (j : Nat) (itin : FlightItinerary) : String :=
  "  " ++ (if j = 0 then "Outbound" else "Return") ++ " (Duration: " ++
    itin.duration.getD "N/A" ++ "):\n" ++ String.join (itin.segments.map formatSegment)

def formatFlightOffer (i : Nat) (offer : FlightOffer) : String :=
  "OPTION " ++ toString i ++ ": " ++ offer.priceTotal.getD "N/A" ++ " " ++
    offer.priceCurrency.getD "USD" ++ "\n" ++
    String.join ((enumFrom0 offer.itineraries).map (fun p => formatItinerary p.1 p.2)) ++ "\n"

/-- `search_flights(origin, destination, departure_date, return_date=None,
adults=1)` (no timeout on the request; an auth failure raises into this
function's catch-all). -/
def search_flights (apiKey apiSecret origin destination departure_date : String)
    (return_date : Option String) (adults : Int) (cache : TokenCache) (now : Int)
    (authEnv : AuthOutcome) (env : FlightOutcome) : RunOut :=
  pyTryRun
    (let tokenOut := get_amadeus_token apiKey apiSecret cache now authEnv
     match tokenOut.1 with
     | .error e => (.error e, tokenOut.2)
     | .ok (_, _) =>
       let params :=
         [("originLocationCode", pyUpper origin), ("destinationLocationCode", pyUpper destination),
          ("departureDate", departure_date), ("adults", toString adults),
          ("currencyCode", "USD"), ("max", "5")] ++
           (match return_date with
            | some r => if r ≠ "" then [("returnDate", r)] else []
            | none => [])
       let req : HttpReq := ⟨AMADEUS_FLIGHT_URL, params, none⟩
       match env with
       | .exn m => (.error (.other m), tokenOut.2 ++ [req])
       | .resp status offers errDetail text =>
         if status = 200 then
           if offers.isEmpty then
             (.ok "No flights found for the specified route and dates.", tokenOut.2 ++ [req])
           else
             (.ok ("Flight Offers from " ++ pyUpper origin ++ " to " ++ pyUpper destination ++
                   ":\n\n" ++
                   String.join ((enumFrom1 (offers.take 5)).map
                     (fun p => formatFlightOffer p.1 p.2))),
              tokenOut.2 ++ [req])
         else
           (.ok ("Flight search failed: " ++ toString status ++ " - " ++ errDetail.getD text),
            tokenOut.2 ++ [req]))
    (fun e => some ("Flight search error: " ++ pyExcMsg e))

structure HotelEntry where
  hotelId : Option String
deriving DecidableEq, Repr

structure HotelRoomType where
  category : Option String
  beds : Option String
  bedType : Option String
deriving DecidableEq, Repr

structure HotelOffer where
  priceTotal : Option String
  priceCurrency : Option String
  room : HotelRoomType
deriving DecidableEq, Repr

structure HotelResult where
  name : Option String
  offers : List HotelOffer
deriving DecidableEq, Repr

inductive HotelListOutcome where
  | resp (status : Nat) (data : List HotelEntry)
  | exn (msg : String)
deriving DecidableEq, Repr

inductive HotelOffersOutcome where
  | resp (status : Nat) (data : List HotelResult) (errDetail : Option String) (text : String)
  | exn (msg : String)
deriving DecidableEq, Repr

def hotelFallbackMsg (city_code : String) : String :=
  "\nHotel Search for " ++ pyUpper city_code ++
  ":\n\nNote: Unable to retrieve specific hotel listings for this city code.\nThis may be due to:\n- Invalid city code (use IATA codes like 'PAR' for Paris, 'NYC' for New York)\n- Limited data in Amadeus test environment\n\nSuggestions:\n- For Paris, try: PAR\n- For New York, try: NYC\n- For London, try: LON\n- For Tokyo, try: TYO\n\nThe test environment has limited hotel data. For production use, more hotels would be available.\n"

def formatHotelEntry (i : Nat) (hotel : HotelResult) : String :=
  match hotel.offers with
  | [] => ""
  | offer :: _ =>
    toString i ++ ". " ++ hotel.name.getD "Unknown Hotel" ++ "\n   Price: " ++
      offer.priceTotal.getD "N/A" ++ " " ++ offer.priceCurrency.getD "USD" ++
      " (total stay)\n   Room: " ++ offer.room.category.getD "Standard" ++ ", " ++
      offer.room.beds.getD "N/A" ++ " " ++ offer.room.bedType.getD "N/A" ++ " bed(s)\n\n"

/-- `search_hotels(city_code, check_in_date, check_out_date, adults=1)`. -/
def search_hotels (apiKey apiSecret city_code check_in_date check_out_date : String)
    (adults : Int) (cache : TokenCache) (now : Int) (authEnv : AuthOutcome)
    (listEnv : HotelListOutcome) (offersEnv : HotelOffersOutcome) : RunOut :=
  pyTryRun
    (let tokenOut := get_amadeus_token apiKey apiSecret cache now authEnv
     match tokenOut.1 with
     | .error e => (.error e, tokenOut.2)
     | .ok (_, _) =>
       let listReq : HttpReq :=
         ⟨AMADEUS_HOTEL_LIST_URL,
          [("cityCode", pyUpper city_code), ("radius", "10"), ("radiusUnit", "KM"),
           ("hotelSource", "ALL")], none⟩
       match listEnv with
       | .exn m => (.error (.other m), tokenOut.2 ++ [listReq])
       | .resp lstatus ldata =>
         let hotel_ids :=
           if lstatus = 200 then
             ((ldata.take 10).filterMap (fun h => h.hotelId)).filter (fun i => i ≠ "")
           else []
         if hotel_ids.isEmpty then
           (.ok (hotelFallbackMsg city_code), tokenOut.2 ++ [listReq])
         else
           let offersReq : HttpReq :=
             ⟨AMADEUS_HOTEL_OFFERS_URL,
              [("hotelIds", String.intercalate "," (hotel_ids.take 5)),
               ("checkInDate", check_in_date), ("checkOutDate", check_out_date),
               ("adults", toString adults), ("currency", "USD")], none⟩
           match offersEnv with
           | .exn m => (.error (.other m), tokenOut.2 ++ [listReq, offersReq])
           | .resp status data errDetail text =>
             if status = 200 then
               if data.isEmpty then
                 (.ok ("No hotel offers found in " ++ pyUpper city_code ++
                       " for the specified dates."), tokenOut.2 ++ [listReq, offersReq])
               else
                 (.ok ("Hotel Offers in " ++ pyUpper city_code ++ " (" ++ check_in_date ++
                       " to " ++ check_out_date ++ "):\n\n" ++
                       String.join ((enumFrom1 (data.take 5)).map
                         (fun p => formatHotelEntry p.1 p.2))),
                  tokenOut.2 ++ [listReq, offersReq])
             else
               (.ok ("Hotel search failed: " ++ toString status ++ " - " ++ errDetail.getD text),
                tokenOut.2 ++ [listReq, offersReq]))
    (fun e => some ("Hotel search error: " ++ pyExcMsg e))

/-! ### The pipe-delimited argument parsers

Each parser is parameterized by the underlying search function it would
dispatch to, which makes "the search function is not called" statable. -/

/-- `_parse_and_search_flights(query)` on the already-split parts. -/
def _parse_and_search_flights_parts
    (search : String → String → String → Option String → Int → String)
    (parts : List String) : PyResult :=
  pyTry
    (if parts.length < 3 then
       .ok "Invalid format. Use: origin|destination|departure_date|return_date(optional)|adults"
     else
       let origin := pyStrip (parts.getD 0 "")
       let destination := pyStrip (parts.getD 1 "")
       let departure_date := pyStrip (parts.getD 2 "")
       let return_date :=
         if parts.length > 3 && pyStrip (parts.getD 3 "") ≠ "" then
           some (pyStrip (parts.getD 3 ""))
         else none
       match (if parts.length > 4 && pyStrip (parts.getD 4 "") ≠ "" then
                pyIntExc (pyStrip (parts.getD 4 ""))
              else .ok 1) with
       | .error e => .error e
       | .ok adults => .ok (search origin destination departure_date return_date adults))
    (fun e => some ("Error parsing flight search: " ++ pyExcMsg e ++
                    ". Use format: origin|destination|departure_date|return_date|adults"))

def _parse_and_search_flights
    (search : String → String → String → Option String → Int → String)
    (query : String) : PyResult :=
  _parse_and_search_flights_parts search (pySplit '|' query)

/-- `_parse_and_search_hotels(query)` on the already-split parts. -/
def _parse_and_search_hotels_parts (search : String → String → String → Int → String)
    (parts : List String) : PyResult :=
  pyTry
    (if parts.length < 3 then
       .ok "Invalid format. Use: city_code|check_in_date|check_out_date|adults"
     else
       let city_code := pyStrip (parts.getD 0 "")
       let check_in := pyStrip (parts.getD 1 "")
       let check_out := pyStrip (parts.getD 2 "")
       match (if parts.length > 3 && pyStrip (parts.getD 3 "") ≠ "" then
                pyIntExc (pyStrip (parts.getD 3 ""))
              else .ok 1) with
       | .error e => .error e
       | .ok adults => .ok (search city_code check_in check_out adults))
    (fun e => some ("Error parsing hotel search: " ++ pyExcMsg e ++
                    ". Use format: city_code|check_in_date|check_out_date|adults"))

def _parse_and_search_hotels (search : String → String → String → Int → String)
    (query : String) : PyResult :=
  _parse_and_search_hotels_parts search (pySplit '|' query)

/-! ## streamlit_short_term_memory.py -/

/-- `_parse_flights(query)` (no `try` of its own: an `int()` failure
propagates). -/
def _parse_flights_parts (search : String → String → String → Option String → Int → String)
    (parts : List String) : PyResult :=
  if parts.length < 3 then .ok "Use format: origin|destination|departure_date|return_date|adults"
  else
    let return_date :=
      if parts.length > 3 && pyStrip (parts.getD 3 "") ≠ "" then some (pyStrip (parts.getD 3 ""))
      else none
    match (if parts.length > 4 && pyStrip (parts.getD 4 "") ≠ "" then
             pyIntExc (parts.getD 4 "")
           else .ok 1) with
    | .error e => .error e
    | .ok adults =>
      .ok (search (pyStrip (parts.getD 0 "")) (pyStrip (parts.getD 1 ""))
            (pyStrip (parts.getD 2 "")) return_date adults)

def _parse_flights (search : String → String → String → Option String → Int → String)
    (query : String) : PyResult :=
  _parse_flights_parts search (pySplit '|' query)

/-- `_parse_hotels(query)` (no `try` of its own). -/
def _parse_hotels_parts (search : String → String → String → Int → String)
    (parts : List String) : PyResult :=
  if parts.length < 3 then .ok "Use format: city_code|check_in|check_out|adults"
  else
    match (if parts.length > 3 && pyStrip (parts.getD 3 "") ≠ "" then
             pyIntExc (parts.getD 3 "")
           else .ok 1) with
    | .error e => .error e
    | .ok adults =>
      .ok (search (pyStrip (parts.getD 0 "")) (pyStrip (parts.getD 1 ""))
            (pyStrip (parts.getD 2 "")) adults)

def _parse_hotels (search : String → String → String → Int → String) (query : String) :
    PyResult :=
  _parse_hotels_parts search (pySplit '|' query)

/-- An entry of `st.session_state.messages`. -/
structure ChatMsg where
  role : String
  content : String
deriving DecidableEq, Repr

/-- `agent.invoke`'s result as the chat block reads it (`response.get("output",
...)`), or the exception `st.error` displays. -/
structure AgentResponse where
  output : Option String
deriving DecidableEq, Repr

/-- One run of the chat-input block: the user message is appended, then on a
successful agent call the assistant message; on an exception nothing else is
appended (the error is only displayed).  No chat-turn code removes or
reorders entries. -/
def chatTurn (messages : List ChatMsg) (prompt : String)
    (agentOutcome : Except String AgentResponse) : List ChatMsg :=
  let messages := messages ++ [⟨"user", prompt⟩]
  match agentOutcome with
  | .ok response =>
    messages ++ [⟨"assistant", response.output.getD "I couldn't generate a response."⟩]
  | .error _ => messages

/-- The entries one turn appends. -/
def chatTurnEntries (prompt : String) (agentOutcome : Except String AgentResponse) :
    List ChatMsg :=
  ⟨"user", prompt⟩ ::
    (match agentOutcome with
     | .ok response => [⟨"assistant", response.output.getD "I couldn't generate a response."⟩]
     | .error _ => [])

/-- A sequence of chat turns. -/
def chatTurns (messages : List ChatMsg) :
    List (String × Except String AgentResponse) → List ChatMsg
  | [] => messages
  | (p, o) :: rest => chatTurns (chatTurn messages p o) rest

/-! ## The reasoning loop

Modelled from the spec: the Reasoning Loop Controller (spec section 4.3) —
the `AgentExecutor` both agent scripts construct is external library code,
not part of this repository, so the loop's mechanics follow the spec's state
machine; the iteration cap the repository configures for it
(`max_iterations=5` in both `create_agent_with_memory` and `create_agent`)
comes from the source. -/

inductive TEntry where
  | userMessage (text : String)
  | reasoningOutput (calls : List String)
  | toolObservation (result : String)
  | finalAnswer (text : String)
deriving DecidableEq, Repr

inductive ReasonOut where
  | finalAnswer (text : String)
  | toolRequests (calls : List String)

inductive TurnOutcome where
  | done (answer : String)
  | iterationLimitExceeded
deriving DecidableEq, Repr

structure LoopResult where
  outcome : TurnOutcome
  dispatchPhases : Nat
  transcript : List TEntry
deriving DecidableEq, Repr

/-- Modelled from the spec: each remaining round-trip asks the reasoning
function; a `FinalAnswer` ends the turn, tool requests run a dispatch phase
whose observations are appended in call order; an exhausted cap fails with
`IterationLimitExceeded`, keeping the partial transcript. -/
def runLoopAux (reason : List TEntry → ReasonOut) (invoke : String → String) :
    Nat → List TEntry → Nat → LoopResult
  | 0, transcript, dispatched => ⟨.iterationLimitExceeded, dispatched, transcript⟩
  | fuel + 1, transcript, dispatched =>
    match reason transcript with
    | .finalAnswer t => ⟨.done t, dispatched, transcript ++ [.finalAnswer t]⟩
    | .toolRequests calls =>
      runLoopAux reason invoke fuel
        (transcript ++ [.reasoningOutput calls] ++
          calls.map (fun c => .toolObservation (invoke c)))
        (dispatched + 1)

def runLoop (reason : List TEntry → ReasonOut) (invoke : String → String) (cap : Nat)
    (userMessage : String) : LoopResult :=
  runLoopAux reason invoke cap [.userMessage userMessage] 0

/-- The iteration cap both repository agents pass to their `AgentExecutor`
(`max_iterations=5`). -/
def repoMaxIterations : Nat := 5

/-! ## Handler totality: each tool's `except` list ends in a catch-all -/

theorem newsHandler_total : ∀ e, (newsHandler e).isSome := by
  intro e; cases e <;> rfl

theorem weatherHandler_total : ∀ e, (weatherHandler e).isSome := by
  intro e; cases e <;> rfl

theorem calcHandler_total : ∀ e, (calcHandler e).isSome := by
  intro e; cases e <;> rfl

/-! ## C4 -/

/-- C4 counterexample: executing the `calculate` tools on `"2+2"` does not
return the bare string `"4"` (neither the utils server's nor the ReAct
demo's). -/
theorem calculate_two_plus_two_not_bare :
    calculate "2+2" ≠ .ok "4" ∧ simple_react_calculate "2+2" ≠ "4" := by
  decide

/-- C4 (amended): executing the utils server's `calculate` on `"2+2"`
returns the string `"Result: 2+2 = 4"` (the computed value is 4), and the
ReAct demo's `calculate` returns `"The result is: 4"` — not the bare
`"4"`. -/
theorem calculate_two_plus_two :
    calculate "2+2" = .ok "Result: 2+2 = 4" ∧
    simple_react_calculate "2+2" = "The result is: 4" := by
  decide

/-! ## C5 -/

theorem firstInvalidChar_none_valid :
    ∀ (l : List Char), firstInvalidChar l = none →
      ∀ c ∈ l, (allowedChars.contains c || pyIsAlpha c) = true := by
  intro l
  induction l with
  | nil => intro _ c hc; cases hc
  | cons a l ih =>
    intro h c hc
    unfold firstInvalidChar at h
    by_cases ha : (allowedChars.contains a || pyIsAlpha a) = true
    · rw [if_pos ha] at h
      cases hc with
      | head => exact ha
      | tail _ hmem => exact ih h c hmem
    · rw [if_neg ha] at h
      cases h

/-- C5: for an expression that does not match the `"X% of Y"` pattern,
when the preprocessed string contains a character outside
`"0123456789+-*/().%, "` and the alphabet, `calculate` returns the error
string naming the first such character, whatever the general evaluator is
(the evaluator is never reached); otherwise every character handed to the
evaluator is from that set. -/
theorem calculate_invalid_char_gate (ev : List Char → Except PyExc NumV)
    (expression : String)
    (hnp : searchPercentOf (pyLower expression).data = none) :
    (∀ c, firstInvalidChar (calcPreprocess expression) = some c →
      calculate_gen ev expression =
        .ok ("Error: Invalid character '" ++ c.toString ++ "' in expression")) ∧
    (firstInvalidChar (calcPreprocess expression) = none →
      ∀ c ∈ calcPreprocess expression, (allowedChars.contains c || pyIsAlpha c) = true) := by
  constructor
  · intro c hc
    unfold calculate_gen
    rw [hnp, hc]
    rfl
  · intro hnone
    exact firstInvalidChar_none_valid _ hnone

/-- C5 witness: on `"2+#"` (no percentage pattern, invalid `#`), the error
names `#` and the evaluator — here the real one — is bypassed. -/
theorem calculate_invalid_char_gate_witness :
    calculate_gen pyEvalArith "2+#" =
      .ok ("Error: Invalid character '" ++ '#'.toString ++ "' in expression") :=
  (calculate_invalid_char_gate pyEvalArith "2+#" (by decide)).1 '#' (by decide)

/-! ## C2 -/

theorem runLoopAux_always_tools (reason : List TEntry → ReasonOut) (invoke : String → String)
    (h : ∀ t, ∃ calls, reason t = ReasonOut.toolRequests calls) :
    ∀ (cap : Nat) (t : List TEntry) (d : Nat),
      (runLoopAux reason invoke cap t d).outcome = .iterationLimitExceeded ∧
      (runLoopAux reason invoke cap t d).dispatchPhases = d + cap := by
  intro cap
  induction cap with
  | zero => intro t d; exact ⟨rfl, rfl⟩
  | succ n ih =>
    intro t d
    obtain ⟨calls, hc⟩ := h t
    unfold runLoopAux
    rw [hc]
    have := ih (t ++ [.reasoningOutput calls] ++ calls.map (fun c => .toolObservation (invoke c)))
      (d + 1)
    refine ⟨this.1, ?_⟩
    rw [this.2]; omega

/-- C2 counterexample: with the iteration cap the repository actually
configures (`max_iterations=5` in both agent constructions), an always-tools
loop performs 5 dispatch phases before failing, not 10. -/
theorem loop_repo_cap_not_ten :
    (runLoop (fun _ => .toolRequests ["calculate"]) (fun _ => "ok")
      repoMaxIterations "hi").dispatchPhases = 5 ∧
    (runLoop (fun _ => .toolRequests ["calculate"]) (fun _ => "ok")
      repoMaxIterations "hi").dispatchPhases ≠ 10 := by
  decide

/-- C2 (amended): a reasoning loop whose reasoning function always requests
tools terminates with `IterationLimitExceeded` after exactly the configured
cap's number of dispatch phases — and the cap this repository configures is
`max_iterations = 5`, not 10. -/
theorem loop_always_tools_cap (reason : List TEntry → ReasonOut) (invoke : String → String)
    (user : String) (cap : Nat)
    (h : ∀ t, ∃ calls, reason t = ReasonOut.toolRequests calls) :
    (runLoop reason invoke cap user).outcome = .iterationLimitExceeded ∧
    (runLoop reason invoke cap user).dispatchPhases = cap ∧
    repoMaxIterations = 5 := by
  have := runLoopAux_always_tools reason invoke h cap [.userMessage user] 0
  exact ⟨this.1, by rw [runLoop, this.2]; omega, rfl⟩

/-- C2 witness: the amended theorem at a concrete always-tools reasoning
function and the repository's cap. -/
theorem loop_always_tools_cap_witness :
    (runLoop (fun _ => .toolRequests ["calculate"]) (fun _ => "ok") 5 "hi").outcome =
      .iterationLimitExceeded ∧
    (runLoop (fun _ => .toolRequests ["calculate"]) (fun _ => "ok") 5 "hi").dispatchPhases = 5 ∧
    repoMaxIterations = 5 :=
  loop_always_tools_cap (fun _ => .toolRequests ["calculate"]) (fun _ => "ok") "hi" 5
    (fun _ => ⟨["calculate"], rfl⟩)

/-! ## C8 -/

theorem chatTurn_appends (messages : List ChatMsg) (prompt : String)
    (agentOutcome : Except String AgentResponse) :
    chatTurn messages prompt agentOutcome = messages ++ chatTurnEntries prompt agentOutcome := by
  cases agentOutcome <;> simp [chatTurn, chatTurnEntries]

/-- C8: the chat log is append-only and order-preserving: running any
sequence of chat turns from any starting list yields exactly the starting
entries followed by each turn's appended entries, in order — no chat-turn
operation reorders or deletes. -/
theorem chatTurns_append_only (messages : List ChatMsg)
    (turns : List (String × Except String AgentResponse)) :
    chatTurns messages turns =
      messages ++ (turns.map (fun p => chatTurnEntries p.1 p.2)).flatten := by
  induction turns generalizing messages with
  | nil => simp [chatTurns]
  | cons t rest ih =>
    obtain ⟨p, o⟩ := t
    rw [chatTurns, ih, chatTurn_appends]
    simp

/-! ## C7 -/

/-- C7: `get_amadeus_token` checks expiry on every use: with a cached
(truthy) token whose stored expiry is strictly later than now, it returns
the cached token and issues no authentication request; otherwise, on a
200 response it caches the new token with expiry
`now + expires_in (default 1799) - 300` seconds. -/
theorem amadeus_token_cache (apiKey apiSecret : String) (cache : TokenCache) (now : Int)
    (env : AuthOutcome) :
    (∀ t e, cache.token = some t → t ≠ "" → cache.expiry = some e → now < e →
      get_amadeus_token apiKey apiSecret cache now env = (.ok (t, cache), [])) ∧
    (cacheValid cache now = false →
      ∀ tok expIn text, env = .resp 200 (some tok) expIn text →
        get_amadeus_token apiKey apiSecret cache now env =
          (.ok (tok, ⟨some tok, some (now + (expIn.getD 1799 - 300))⟩),
           [authReq apiKey apiSecret])) := by
  constructor
  · intro t e ht htne he hlt
    have hvalid : cacheValid cache now = true := by
      simp [cacheValid, ht, he, htne, hlt]
    simp [get_amadeus_token, hvalid, ht]
  · intro hcv tok expIn text henv
    subst henv
    simp [get_amadeus_token, hcv]

/-- C7 witness: the theorem at a concrete cache, clock and auth response,
exercising both the cached and the refresh branch. -/
theorem amadeus_token_cache_witness :
    get_amadeus_token "k" "s" ⟨some "tok", some 1000⟩ 500 (.exn "down") =
      (.ok ("tok", ⟨some "tok", some 1000⟩), []) ∧
    get_amadeus_token "k" "s" ⟨none, none⟩ 500 (.resp 200 (some "fresh") (some 1799) "") =
      (.ok ("fresh", ⟨some "fresh", some (500 + (1799 - 300))⟩), [authReq "k" "s"]) :=
  ⟨(amadeus_token_cache "k" "s" ⟨some "tok", some 1000⟩ 500 (.exn "down")).1 "tok" 1000
      rfl (by decide) rfl (by decide),
   (amadeus_token_cache "k" "s" ⟨none, none⟩ 500
      (.resp 200 (some "fresh") (some 1799) "")).2 (by decide) "fresh" (some 1799) "" rfl⟩

/-! ## C6 -/

theorem getD_take (l : List String) (n i : Nat) (h : i < n) :
    (l.take n).getD i "" = l.getD i "" := by
  simp [List.getD, List.getElem?_take, h]

/-- What `_parse_and_search_flights` does once at least five parts are
present (so both length guards hold). -/
def flightsDispatch (search : String → String → String → Option String → Int → String)
    (p0 p1 p2 p3 p4 : String) : PyResult :=
  pyTry
    (let return_date := if pyStrip p3 ≠ "" then some (pyStrip p3) else none
     match (if pyStrip p4 ≠ "" then pyIntExc (pyStrip p4) else .ok 1) with
     | .error e => .error e
     | .ok adults => .ok (search (pyStrip p0) (pyStrip p1) (pyStrip p2) return_date adults))
    (fun e => some ("Error parsing flight search: " ++ pyExcMsg e ++
                    ". Use format: origin|destination|departure_date|return_date|adults"))

theorem parse_flights_parts_ge5
    (search : String → String → String → Option String → Int → String)
    (parts : List String) (h : 5 ≤ parts.length) :
    _parse_and_search_flights_parts search parts =
      flightsDispatch search (parts.getD 0 "") (parts.getD 1 "") (parts.getD 2 "")
        (parts.getD 3 "") (parts.getD 4 "") := by
  unfold _parse_and_search_flights_parts flightsDispatch
  have h3 : ¬ parts.length < 3 := by omega
  have hg3 : 3 < parts.length := by omega
  have hg4 : 4 < parts.length := by omega
  simp only [if_neg h3, gt_iff_lt, hg3, hg4]
  simp

/-- What `_parse_and_search_hotels` does once at least four parts are
present. -/
def hotelsDispatch (search : String → String → String → Int → String)
    (p0 p1 p2 p3 : String) : PyResult :=
  pyTry
    (match (if pyStrip p3 ≠ "" then pyIntExc (pyStrip p3) else .ok 1) with
     | .error e => .error e
     | .ok adults => .ok (search (pyStrip p0) (pyStrip p1) (pyStrip p2) adults))
    (fun e => some ("Error parsing hotel search: " ++ pyExcMsg e ++
                    ". Use format: city_code|check_in_date|check_out_date|adults"))

theorem parse_hotels_parts_ge4 (search : String → String → String → Int → String)
    (parts : List String) (h : 4 ≤ parts.length) :
    _parse_and_search_hotels_parts search parts =
      hotelsDispatch search (parts.getD 0 "") (parts.getD 1 "") (parts.getD 2 "")
        (parts.getD 3 "") := by
  unfold _parse_and_search_hotels_parts hotelsDispatch
  have h3 : ¬ parts.length < 3 := by omega
  have hg3 : 3 < parts.length := by omega
  simp only [if_neg h3, gt_iff_lt, hg3]
  simp

/-- C6: each pipe-delimited parser answers a query that splits into fewer
than three parts with its fixed format message, independently of (and
without calling) the underlying search function; with more parts than the
declared fields — five for flights, four for hotels — the extra parts are
ignored (the result equals the parse of the first five/four parts), and the
search still proceeds on the declared fields when they parse. -/
theorem pipe_parsers_validation :
    (∀ search (parts : List String), parts.length < 3 →
      _parse_and_search_flights_parts search parts =
        .ok "Invalid format. Use: origin|destination|departure_date|return_date(optional)|adults") ∧
    (∀ search (parts : List String), parts.length < 3 →
      _parse_and_search_hotels_parts search parts =
        .ok "Invalid format. Use: city_code|check_in_date|check_out_date|adults") ∧
    (∀ search (parts : List String), parts.length < 3 →
      _parse_flights_parts search parts =
        .ok "Use format: origin|destination|departure_date|return_date|adults") ∧
    (∀ search (parts : List String), parts.length < 3 →
      _parse_hotels_parts search parts = .ok "Use format: city_code|check_in|check_out|adults") ∧
    (∀ search (parts : List String), 5 < parts.length →
      _parse_and_search_flights_parts search parts =
        _parse_and_search_flights_parts search (parts.take 5)) ∧
    (∀ search (parts : List String), 4 < parts.length →
      _parse_and_search_hotels_parts search parts =
        _parse_and_search_hotels_parts search (parts.take 4)) ∧
    (∀ search (parts : List String) (a : Int), 5 < parts.length →
      pyStrip (parts.getD 4 "") ≠ "" → pyIntExc (pyStrip (parts.getD 4 "")) = .ok a →
      _parse_and_search_flights_parts search parts =
        .ok (search (pyStrip (parts.getD 0 "")) (pyStrip (parts.getD 1 ""))
              (pyStrip (parts.getD 2 ""))
              (if pyStrip (parts.getD 3 "") ≠ "" then some (pyStrip (parts.getD 3 "")) else none)
              a)) ∧
    (∀ search (parts : List String) (a : Int), 4 < parts.length →
      pyStrip (parts.getD 3 "") ≠ "" → pyIntExc (pyStrip (parts.getD 3 "")) = .ok a →
      _parse_and_search_hotels_parts search parts =
        .ok (search (pyStrip (parts.getD 0 "")) (pyStrip (parts.getD 1 ""))
              (pyStrip (parts.getD 2 "")) a)) := by
  refine ⟨?_, ?_, ?_, ?_, ?_, ?_, ?_, ?_⟩
  · intro search parts h
    unfold _parse_and_search_flights_parts
    rw [if_pos h]; rfl
  · intro search parts h
    unfold _parse_and_search_hotels_parts
    rw [if_pos h]; rfl
  · intro search parts h
    unfold _parse_flights_parts
    rw [if_pos h]
  · intro search parts h
    unfold _parse_hotels_parts
    rw [if_pos h]
  · intro search parts h
    rw [parse_flights_parts_ge5 search parts (by omega),
        parse_flights_parts_ge5 search (parts.take 5) (by simp [List.length_take]; omega),
        getD_take parts 5 0 (by omega), getD_take parts 5 1 (by omega),
        getD_take parts 5 2 (by omega), getD_take parts 5 3 (by omega),
        getD_take parts 5 4 (by omega)]
  · intro search parts h
    rw [parse_hotels_parts_ge4 search parts (by omega),
        parse_hotels_parts_ge4 search (parts.take 4) (by simp [List.length_take]; omega),
        getD_take parts 4 0 (by omega), getD_take parts 4 1 (by omega),
        getD_take parts 4 2 (by omega), getD_take parts 4 3 (by omega)]
  · intro search parts a h hne hint
    rw [parse_flights_parts_ge5 search parts (by omega)]
    unfold flightsDispatch
    rw [if_pos hne, hint]
    rfl
  · intro search parts a h hne hint
    rw [parse_hotels_parts_ge4 search parts (by omega)]
    unfold hotelsDispatch
    rw [if_pos hne, hint]
    rfl

/-- C6 witness: the theorem's clauses at concrete queries: a 2-part flight
query is rejected with the format message; a 6-part flight query behaves
like its first five parts and dispatches the declared fields. -/
theorem pipe_parsers_validation_witness :
    _parse_and_search_flights_parts (fun _ _ _ _ _ => "FLIGHTS") ["JFK", "CDG"] =
      .ok "Invalid format. Use: origin|destination|departure_date|return_date(optional)|adults" ∧
    _parse_and_search_flights_parts (fun o d dep _ _ => o ++ "-" ++ d ++ "-" ++ dep)
      ["JFK", "CDG", "2024-06-15", "", "2", "EXTRA"] =
      .ok ("JFK" ++ "-" ++ "CDG" ++ "-" ++ "2024-06-15") := by
  constructor
  · exact (pipe_parsers_validation.1 (fun _ _ _ _ _ => "FLIGHTS") ["JFK", "CDG"] (by decide))
  · have := (pipe_parsers_validation.2.2.2.2.2.2.1 (fun o d dep _ _ => o ++ "-" ++ d ++ "-" ++ dep)
      ["JFK", "CDG", "2024-06-15", "", "2", "EXTRA"] 2 (by decide) (by decide) (by decide))
    rw [this]
    decide

/-! ## C9 -/

theorem forecastBlocksAux_length (daily : WeatherDaily) :
    ∀ (l : List Nat) (bs : List String), forecastBlocksAux daily l = .ok bs →
      bs.length = l.length := by
  intro l
  induction l with
  | nil =>
    intro bs h
    unfold forecastBlocksAux at h
    cases h
    rfl
  | cons i rest ih =>
    intro bs h
    unfold forecastBlocksAux at h
    cases hb : forecastBlock daily i with
    | error e => rw [hb] at h; cases h
    | ok b =>
      rw [hb] at h
      cases hr : forecastBlocksAux daily rest with
      | error e => rw [hr] at h; cases h
      | ok bs' =>
        rw [hr] at h
        cases h
        simp [ih bs' hr]

theorem geocodeReq_url_ne (city : String) : (geocodeReq city).url ≠ WEATHER_URL := by
  show GEOCODING_URL ≠ WEATHER_URL
  decide

/-- The requests `get_forecast` issues: the geocode request alone (when
geocoding fails), or the geocode request followed by the weather request
with the clamped `forecast_days`. -/
theorem get_forecast_requests (city : String) (days : Int) (geoEnv : GeoOutcome)
    (env : HttpOutcome WeatherData) :
    (get_forecast city days geoEnv env).2 = [geocodeReq city] ∨
    ∃ lat lon,
      (get_forecast city days geoEnv env).2 =
        [geocodeReq city,
         ⟨WEATHER_URL,
          [("latitude", lat), ("longitude", lon), ("daily", dailyFieldsParam),
           ("timezone", "auto"), ("forecast_days", toString (max 1 (min 16 days)))], some 10⟩] := by
  cases geoEnv with
  | exn m => left; rfl
  | resp status results =>
    by_cases hs : status = 200
    · subst hs
      cases results with
      | nil => left; rfl
      | cons loc rest => right; exact ⟨loc.latitude, loc.longitude, rfl⟩
    · left
      simp [get_forecast, _geocode_city, hs, pyTryRun]

/-- C9: `get_forecast` clamps the requested horizon with
`max(1, min(16, days))` before geocoding and querying: the clamped value is
between 1 and 16, it is the `forecast_days` parameter of the weather request
(the only issued request with the weather URL), and the formatter renders
exactly that many day blocks whenever the response carries at least that
many days. -/
theorem get_forecast_clamps (city : String) (days : Int) (geoEnv : GeoOutcome)
    (env : HttpOutcome WeatherData) :
    (1 ≤ max 1 (min 16 days) ∧ max 1 (min 16 days) ≤ 16) ∧
    (∀ r ∈ (get_forecast city days geoEnv env).2, r.url = WEATHER_URL →
      getParam r "forecast_days" = some (toString (max 1 (min 16 days)))) ∧
    (∀ daily blocks, forecastBlocks daily (max 1 (min 16 days)).toNat = .ok blocks →
      (max 1 (min 16 days)).toNat ≤ daily.time.length →
      blocks.length = (max 1 (min 16 days)).toNat) := by
  refine ⟨⟨le_max_left _ _, max_le (by norm_num) (min_le_left _ _)⟩, ?_, ?_⟩
  · intro r hr hurl
    rcases get_forecast_requests city days geoEnv env with h | ⟨lat, lon, h⟩
    · rw [h] at hr
      simp at hr
      rw [hr] at hurl
      exact absurd hurl (geocodeReq_url_ne city)
    · rw [h] at hr
      simp at hr
      rcases hr with hr | hr
      · rw [hr] at hurl
        exact absurd hurl (geocodeReq_url_ne city)
      · rw [hr]
        rfl
  · intro daily blocks hok hlen
    have h := forecastBlocksAux_length daily _ blocks hok
    rw [h, List.length_range]
    omega

/-! ## C10 -/

/-- C10 counterexample: the empty string is not, case-insensitively, one of
the valid categories, yet `get_headlines` with `category=""` performs the
network request (the source's truthiness guard `if category and ...` skips
validation for a falsy string) instead of returning the category error. -/
theorem get_headlines_empty_category_requests :
    VALID_CATEGORIES.contains (pyLower "") = false ∧
    (get_headlines "key" (some "") "us" (.resp 200 ⟨none, none, [], none⟩)).2.length = 1 ∧
    (get_headlines "key" (some "") "us" (.resp 200 ⟨none, none, [], none⟩)).1 ≠
      .ok (invalidCategoryMsg "") := by
  decide

/-- C10 (amended): with the API key set, a non-empty category that is not,
case-insensitively, in `VALID_CATEGORIES` makes `get_headlines` return the
error listing all valid categories with no network request; a valid category
is lowercased into the request's `category` parameter; an omitted — or
empty, by the truthiness guard — category sends no `category` parameter. -/
theorem get_headlines_category_validation (apiKey country : String)
    (env : HttpOutcome NewsData) :
    (∀ c, apiKey ≠ "" → c ≠ "" → VALID_CATEGORIES.contains (pyLower c) = false →
      get_headlines apiKey (some c) country env = (.ok (invalidCategoryMsg c), [])) ∧
    (∀ c, c ≠ "" → VALID_CATEGORIES.contains (pyLower c) = true →
      ∀ r ∈ (get_headlines apiKey (some c) country env).2,
        getParam r "category" = some (pyLower c)) ∧
    (∀ r ∈ (get_headlines apiKey none country env).2, getParam r "category" = none) ∧
    (∀ r ∈ (get_headlines apiKey (some "") country env).2, getParam r "category" = none) := by
  refine ⟨?_, ?_, ?_, ?_⟩
  · intro c hk hc hvc
    have hv : pyLower c ∉ VALID_CATEGORIES := by simpa using hvc
    simp [get_headlines, hk, hc, hv]
  · intro c hc hvc r hr
    have hv : pyLower c ∈ VALID_CATEGORIES := by simpa using hvc
    by_cases hk : apiKey = ""
    · simp [get_headlines, hk] at hr
    · simp [get_headlines, hk, hc, hv, pyTryRun, newsOutcomeCase] at hr
      rw [hr]
      rfl
  · intro r hr
    by_cases hk : apiKey = ""
    · simp [get_headlines, hk] at hr
    · simp [get_headlines, hk, pyTryRun, newsOutcomeCase] at hr
      rw [hr]
      rfl
  · intro r hr
    by_cases hk : apiKey = ""
    · simp [get_headlines, hk] at hr
    · simp [get_headlines, hk, pyTryRun, newsOutcomeCase] at hr
      rw [hr]
      rfl

/-- C10 witness: the amended theorem's clauses at concrete inputs. -/
theorem get_headlines_category_validation_witness :
    get_headlines "key" (some "Finance") "us" (.resp 200 ⟨none, none, [], none⟩) =
      (.ok (invalidCategoryMsg "Finance"), []) ∧
    (∀ r ∈ (get_headlines "key" (some "Sports") "us"
        (.resp 200 ⟨none, none, [], none⟩)).2,
      getParam r "category" = some (pyLower "Sports")) := by
  constructor
  · exact (get_headlines_category_validation "key" "us"
      (.resp 200 ⟨none, none, [], none⟩)).1 "Finance" (by decide) (by decide) (by decide)
  · exact (get_headlines_category_validation "key" "us"
      (.resp 200 ⟨none, none, [], none⟩)).2.1 "Sports" (by decide) (by decide)

/-! ## C3 -/

theorem amadeus_token_req_timeout (a b : String) (cache : TokenCache) (now : Int)
    (env : AuthOutcome) :
    ∀ r ∈ (get_amadeus_token a b cache now env).2, r.timeout = none := by
  intro r hr
  unfold get_amadeus_token at hr
  repeat' split at hr
  all_goals simp at hr
  all_goals (rw [hr]; rfl)

theorem timeout_none_of_append (a b : String) (cache : TokenCache) (now : Int)
    (aEnv : AuthOutcome) (l : List HttpReq) (r : HttpReq)
    (hr : r ∈ (get_amadeus_token a b cache now aEnv).2 ++ l)
    (hl : ∀ x ∈ l, x.timeout = none) : r.timeout = none := by
  rcases List.mem_append.1 hr with h | h
  · exact amadeus_token_req_timeout a b cache now aEnv r h
  · exact hl r h

/-- C3 counterexample: the weather server's tool executions reach an
external service with a 10-second timeout, and the memory-system tools with
no timeout at all — not the claimed 15-second default on every tool. -/
theorem weather_timeout_not_fifteen :
    ((get_weather "London" (.resp 200 [⟨"51.5", "-0.12", "London", some "United Kingdom"⟩])
        (.resp 200 ⟨⟨none, none, none, none, none, none⟩, ⟨[], [], [], [], []⟩⟩)).2.map
      HttpReq.timeout) = [some 10, some 10] ∧
    (some 10 : Option Nat) ≠ some 15 ∧
    ((serp_search "k" "q" (.resp 200 ⟨[], none, none⟩)).2.map HttpReq.timeout) = [none] := by
  refine ⟨rfl, by decide, rfl⟩

/-- C3 (amended): the news server's tool requests carry a 15-second timeout
and a timeout yields the string `"Error: Request timed out. Please try
again."`; the weather server's requests (geocoding included) carry a
10-second timeout with the same timeout message; the memory-system tools
(`serp_search`, the Amadeus auth, `search_flights`, `search_hotels`) issue
their requests with no timeout at all. -/
theorem tool_request_timeouts :
    (∀ key q lang env, ∀ r ∈ (search_news key q lang env).2, r.timeout = some 15) ∧
    (∀ key cat country env, ∀ r ∈ (get_headlines key cat country env).2,
      r.timeout = some 15) ∧
    (∀ key country topic env, ∀ r ∈ (get_news_by_country key country topic env).2,
      r.timeout = some 15) ∧
    (∀ city geoEnv env, ∀ r ∈ (get_weather city geoEnv env).2, r.timeout = some 10) ∧
    (∀ city days geoEnv env, ∀ r ∈ (get_forecast city days geoEnv env).2,
      r.timeout = some 10) ∧
    (∀ lat lon env, ∀ r ∈ (get_weather_by_coordinates lat lon env).2, r.timeout = some 10) ∧
    (∀ key q env, ∀ r ∈ (serp_search key q env).2, r.timeout = none) ∧
    (∀ a b cache now env, ∀ r ∈ (get_amadeus_token a b cache now env).2,
      r.timeout = none) ∧
    (∀ a b o d dep ret ad cache now aEnv fEnv,
      ∀ r ∈ (search_flights a b o d dep ret ad cache now aEnv fEnv).2, r.timeout = none) ∧
    (∀ a b cc ci co ad cache now aEnv lEnv oEnv,
      ∀ r ∈ (search_hotels a b cc ci co ad cache now aEnv lEnv oEnv).2,
      r.timeout = none) ∧
    (∀ key q lang, key ≠ "" →
      (search_news key q lang .exnTimeout).1 =
        .ok "Error: Request timed out. Please try again.") ∧
    (∀ city loc rest,
      (get_weather city (.resp 200 (loc :: rest)) .exnTimeout).1 =
        .ok "Error: Request timed out. Please try again.") := by
  refine ⟨?_, ?_, ?_, ?_, ?_, ?_, ?_, amadeus_token_req_timeout, ?_, ?_, ?_, ?_⟩
  · intro key q lang env r hr
    unfold search_news at hr
    simp only [pyTryRun] at hr
    repeat' split at hr
    all_goals simp [newsOutcomeCase] at hr
    all_goals (subst hr; rfl)
  · intro key cat country env r hr
    unfold get_headlines at hr
    simp only [pyTryRun] at hr
    repeat' split at hr
    all_goals simp [newsOutcomeCase] at hr
    all_goals (subst hr; rfl)
  · intro key country topic env r hr
    unfold get_news_by_country at hr
    simp only [pyTryRun] at hr
    repeat' split at hr
    all_goals simp [newsOutcomeCase] at hr
    all_goals (subst hr; rfl)
  · intro city geoEnv env r hr
    unfold get_weather _geocode_city at hr
    simp only [pyTryRun] at hr
    repeat' split at hr
    all_goals simp [weatherOutcomeCase] at hr
    all_goals first
      | (subst hr; rfl)
      | (rcases hr with hr | hr <;> (subst hr; rfl))
  · intro city days geoEnv env r hr
    unfold get_forecast _geocode_city at hr
    simp only [pyTryRun] at hr
    repeat' split at hr
    all_goals simp [weatherOutcomeCase] at hr
    all_goals first
      | (subst hr; rfl)
      | (rcases hr with hr | hr <;> (subst hr; rfl))
  · intro lat lon env r hr
    simp [get_weather_by_coordinates, pyTryRun, weatherOutcomeCase] at hr
    subst hr; rfl
  · intro key q env r hr
    simp [serp_search, pyTryRun] at hr
    subst hr; rfl
  · intro a b o d dep ret ad cache now aEnv fEnv r hr
    unfold search_flights at hr
    simp only [pyTryRun] at hr
    repeat' split at hr
    all_goals first
      | exact amadeus_token_req_timeout a b cache now aEnv r hr
      | exact timeout_none_of_append a b cache now aEnv _ r hr
          (by intro x hx; simp at hx; subst hx; rfl)
  · intro a b cc ci co ad cache now aEnv lEnv oEnv r hr
    unfold search_hotels at hr
    simp only [pyTryRun] at hr
    repeat' split at hr
    all_goals first
      | exact amadeus_token_req_timeout a b cache now aEnv r hr
      | exact timeout_none_of_append a b cache now aEnv _ r hr
          (by intro x hx; simp at hx; subst hx; rfl)
      | exact timeout_none_of_append a b cache now aEnv _ r hr
          (by intro x hx; simp at hx; rcases hx with hx | hx <;> (subst hx; rfl))
  · intro key q lang hk
    simp [search_news, hk, pyTryRun, newsOutcomeCase, pyTry, newsHandler]
  · intro city loc rest
    rfl

/-! ## C1 -/

/-- C1: every tool function returns a string for every input and every
environment behavior: each one's `try/except` structure (headed by the
pre-`try` validation returns) absorbs every modelled exception — the last
`except` clause of each is a catch-all — so no tool invocation propagates an
exception to its caller. -/
theorem tools_never_raise :
    (∀ key q lang env, resultOk (search_news key q lang env).1 = true) ∧
    (∀ key cat country env, resultOk (get_headlines key cat country env).1 = true) ∧
    (∀ key country topic env, resultOk (get_news_by_country key country topic env).1 = true) ∧
    (∀ city geoEnv env, resultOk (get_weather city geoEnv env).1 = true) ∧
    (∀ city days geoEnv env, resultOk (get_forecast city days geoEnv env).1 = true) ∧
    (∀ lat lon env, resultOk (get_weather_by_coordinates lat lon env).1 = true) ∧
    (∀ expression, resultOk (calculate expression) = true) ∧
    (∀ timezone env, resultOk (get_current_time timezone env) = true) ∧
    (∀ ts ftz ttz env, resultOk (convert_timezone ts ftz ttz env) = true) ∧
    (∀ value fu tu, resultOk (convert_temperature value fu tu) = true) ∧
    (∀ key q env, resultOk (serp_search key q env).1 = true) ∧
    (∀ a b o d dep ret ad cache now aEnv fEnv,
      resultOk (search_flights a b o d dep ret ad cache now aEnv fEnv).1 = true) ∧
    (∀ a b cc ci co ad cache now aEnv lEnv oEnv,
      resultOk (search_hotels a b cc ci co ad cache now aEnv lEnv oEnv).1 = true) := by
  refine ⟨?_, ?_, ?_, ?_, ?_, ?_, ?_, ?_, ?_, ?_, ?_, ?_, ?_⟩
  · intro key q lang env
    unfold search_news
    split
    · rfl
    · exact pyTryRun_ok_of_total _ _ newsHandler_total
  · intro key cat country env
    unfold get_headlines
    split
    · rfl
    · split
      · rfl
      · exact pyTryRun_ok_of_total _ _ newsHandler_total
  · intro key country topic env
    unfold get_news_by_country
    split
    · rfl
    · exact pyTryRun_ok_of_total _ _ newsHandler_total
  · intro city geoEnv env
    unfold get_weather
    repeat' split
    all_goals first
      | rfl
      | exact pyTryRun_ok_of_total _ _ weatherHandler_total
  · intro city days geoEnv env
    unfold get_forecast
    repeat' split
    all_goals first
      | rfl
      | exact pyTryRun_ok_of_total _ _ weatherHandler_total
  · intro lat lon env
    unfold get_weather_by_coordinates
    exact pyTryRun_ok_of_total _ _ weatherHandler_total
  · intro expression
    unfold calculate calculate_gen
    exact pyTry_ok_of_total _ _ calcHandler_total
  · intro timezone env
    unfold get_current_time
    exact pyTry_ok_of_total _ _ (fun e => rfl)
  · intro ts ftz ttz env
    unfold convert_timezone
    exact pyTry_ok_of_total _ _ (fun e => rfl)
  · intro value fu tu
    unfold convert_temperature
    repeat' split
    all_goals rfl
  · intro key q env
    unfold serp_search
    exact pyTryRun_ok_of_total _ _ (fun e => rfl)
  · intro a b o d dep ret ad cache now aEnv fEnv
    unfold search_flights
    exact pyTryRun_ok_of_total _ _ (fun e => rfl)
  · intro a b cc ci co ad cache now aEnv lEnv oEnv
    unfold search_hotels
    exact pyTryRun_ok_of_total _ _ (fun e => rfl)

end LC
